import Mathlib

/-!
# Edge services: broker core (EAA) and host interface service

A shallow embedding of the parts of `edgeservices` that the specification
speaks about, followed by the theorems that settle its claims.

* `EAA` — the broker core.  The registry, the identity resolver and the
  heartbeat state machine are not part of the available sources (only
  `pkg/eaa/config.go` and the test suite are); they are modelled from the
  specification and marked as such.  The start-up sequence `runEaa` and
  `generateConfigs` are embedded from `pkg/eaa/eaa_suite_test.go`, the types
  `Config` and `CertsInfo` from `pkg/eaa/config.go`.
* `InterfaceService` — `Get`, `Attach`, `Detach` and `detachPortFromOvs`
  from `pkg/interfaceservice`, with the helper functions that live in other
  files taken as parameters.
-/

/-! ## Go values shared by both packages -/

/-- A Go `error` value: either an error with a given text, or the result of
`errors.Wrapf(cause, format, args...)`, which keeps its cause. -/
inductive GoError where
  | msg (text : String)
  | wrapf (cause : GoError) (format : String) (args : List String)
  deriving DecidableEq, Repr

/-- The method `Error()`: the text of the error; a wrapped error prints its
formatted message, a colon and the text of its cause.  `sprintf` stands for
`fmt.Sprintf`. -/
def GoError.Error (sprintf : String → List String → String) : GoError → String
  | GoError.msg text => text
  | GoError.wrapf cause format args =>
    sprintf format args ++ ": " ++ GoError.Error sprintf cause

/-- The error directly wrapped by an error, if any. -/
def GoError.Unwrap : GoError → Option GoError
  | GoError.msg _ => none
  | GoError.wrapf cause _ _ => some cause

set_option linter.dupNamespace false

namespace EAA

/-! ## Data model (spec §3, §7) -/

/-- Resolved identity of an application instance. -/
abbrev AppID := String

/-- String-keyed logical scope owned by one `AppID`. -/
abbrev Namespace := String

/-- String-keyed subdivision of a namespace. -/
abbrev Topic := String

/-- Opaque bytes carried by a notification. -/
abbrev Payload := List UInt8

/-- Identifier of a live connection. -/
abbrev ConnID := Nat

/-- The error kinds of spec §7. -/
inductive ErrorKind where
  | IdentityUnresolved
  | NamespaceConflict
  | NamespaceNotFound
  | NotAuthorized
  | PublishFailed
  | BackendUnavailable
  deriving DecidableEq, Repr

/-- A subscription binds a connection to a namespace and a topic; `topic = none`
is the wildcard subscription. -/
structure Subscription where
  ns : Namespace
  topic : Option Topic
  conn : ConnID
  deriving DecidableEq, Repr

/-- Modelled from the spec: the Namespace & Subscription Registry of §4.2, whose
implementation is not among the available sources.  It records the owner of
every registered namespace and the set of subscriptions. -/
structure Registry where
  owners : List (Namespace × AppID)
  subscriptions : List Subscription
  deriving DecidableEq, Repr

/-- Modelled from the spec: the owner of a namespace, `none` when the namespace
is not registered (§3: a namespace has exactly one owner). -/
def Registry.owner (r : Registry) (ns : Namespace) : Option AppID :=
  r.owners.lookup ns

/-- Modelled from the spec: `RegisterNamespace(appID, namespace) -> error` of
§4.2: "succeeds if namespace does not exist (creates it, owner = appID) or
already exists with owner == appID (idempotent); fails with `NamespaceConflict`
if owned by a different appID". -/
def RegisterNamespace (appID : AppID) (ns : Namespace) (r : Registry) :
    Option ErrorKind × Registry :=
  match r.owner ns with
  | none => (none, { r with owners := (ns, appID) :: r.owners })
  | some o =>
    if o = appID then (none, r) else (some ErrorKind.NamespaceConflict, r)

/-- Modelled from the spec: the state the `Publish` path works on (§4.2, §4.3):
the registry, the state of the selected backend, and the record of what has
been handed to the Broker Backend Adapter. -/
structure Broker (B : Type) where
  registry : Registry
  backend : B
  forwarded : List (Namespace × Topic × Payload)

/-- Modelled from the spec: `Publish(appID, namespace, topic, payload) -> error`
of §4.2 with the failure semantics of §4.3 and the scenario of §8: an
unregistered namespace gives `NamespaceNotFound`, a registered namespace owned
by another AppID gives `NotAuthorized`, otherwise the notification is forwarded
to the backend, whose failure is surfaced as `PublishFailed`.  The backend's
`Publish(topic, payload)` is the parameter `backendPublish`; it reports
success with `true`. -/
def Publish {B : Type} (backendPublish : Namespace × Topic → Payload → B → Bool × B)
    (appID : AppID) (ns : Namespace) (topic : Topic) (payload : Payload)
    (s : Broker B) : Option ErrorKind × Broker B :=
  match s.registry.owner ns with
  | none => (some ErrorKind.NamespaceNotFound, s)
  | some o =>
    if o = appID then
      let r := backendPublish (ns, topic) payload s.backend
      (if r.1 then none else some ErrorKind.PublishFailed,
       { s with backend := r.2, forwarded := s.forwarded ++ [(ns, topic, payload)] })
    else (some ErrorKind.NotAuthorized, s)

/-! ## Identity resolver (spec §4.1) -/

/-- Modelled from the spec: what the resolver sees of an inbound connection: the
Common Name of the validated client certificate, if one was presented, and the
peer's network address. -/
structure Connection where
  certCommonName : Option String
  peerIP : String
  deriving DecidableEq, Repr

/-- Modelled from the spec: the answer of the external validation service (§6):
an AppID, an explicit "unknown" indication, or no answer at all. -/
inductive LookupResult where
  | found (appID : AppID)
  | unknown
  | unreachable
  deriving DecidableEq, Repr

/-- Modelled from the spec: `Resolve(connection) -> (AppID, error)` of §4.1.
`accessName` is the broker's shared access Common Name, `lookup` the
validation service keyed by source IP.  The second component of the result is
the list of lookup requests issued, in order. -/
def Resolve (accessName : String) (lookup : String → LookupResult)
    (c : Connection) : Except ErrorKind AppID × List String :=
  match c.certCommonName with
  | some cn =>
    if cn = accessName then
      match lookup c.peerIP with
      | LookupResult.found a => (Except.ok a, [c.peerIP])
      | _ => (Except.error ErrorKind.IdentityUnresolved, [c.peerIP])
    else (Except.ok cn, [])
  | none =>
    match lookup c.peerIP with
    | LookupResult.found a => (Except.ok a, [c.peerIP])
    | _ => (Except.error ErrorKind.IdentityUnresolved, [c.peerIP])

/-! ## Heartbeat state machine (spec §4.4) -/

/-- Modelled from the spec: the three liveness states of a connection. -/
inductive Liveness where
  | Alive
  | Suspected
  | Dead
  deriving DecidableEq, Repr

/-- Modelled from the spec: what the heartbeat driver observes of one connection:
a heartbeat interval that elapsed without an acknowledgment or any other
traffic, or inbound traffic (an acknowledgment included). -/
inductive Observation where
  | missedInterval
  | traffic
  deriving DecidableEq, Repr

/-- Modelled from the spec: the delivery engine's view of one connection: its
liveness state, whether its send queue still exists, and the registry holding
its subscriptions. -/
structure Engine where
  conn : ConnID
  liveness : Liveness
  queueOpen : Bool
  registry : Registry
  deriving DecidableEq, Repr

/-- Modelled from the spec: removal of all subscriptions of a connection from the
registry (§3: a connection's subscriptions are removed when it is destroyed). -/
def Registry.dropConnection (r : Registry) (c : ConnID) : Registry :=
  { r with subscriptions := r.subscriptions.filter (fun s => s.conn != c) }

/-- Modelled from the spec: one transition of the per-connection heartbeat state
machine of §4.4.  A missed interval moves `Alive` to `Suspected` and
`Suspected` to `Dead`; on reaching `Dead` the connection is torn down, its
subscriptions are removed from the registry and its send queue is discarded;
inbound traffic returns a `Suspected` connection to `Alive`; `Dead` is final
(§3: no resurrection). -/
def Engine.step (e : Engine) : Observation → Engine
  | Observation.missedInterval =>
    match e.liveness with
    | Liveness.Alive => { e with liveness := Liveness.Suspected }
    | Liveness.Suspected =>
      { e with liveness := Liveness.Dead, queueOpen := false,
               registry := e.registry.dropConnection e.conn }
    | Liveness.Dead => e
  | Observation.traffic =>
    match e.liveness with
    | Liveness.Alive => e
    | Liveness.Suspected => { e with liveness := Liveness.Alive }
    | Liveness.Dead => e

/-- Modelled from the spec: the state machine run over a sequence of
observations, oldest first. -/
def Engine.run (e : Engine) (obs : List Observation) : Engine :=
  obs.foldl Engine.step e

/-! ## Start-up sequence (`pkg/eaa/eaa_suite_test.go`, `runEaa`) -/

/-- `KafkaBackend` of the test suite. -/
def KafkaBackend : String := "kafka"

/-- `GochannelsBackend` of the test suite. -/
def GochannelsBackend : String := "gochannels"

/-- A message broker as stored in `eaa.Context.MsgBrokerCtx`, tagged by the
constructor function that produced it (`K` for `NewKafkaMsgBroker`, `G` for
`NewGoChannelMsgBroker`). -/
inductive MsgBroker (K G : Type) where
  | kafka (b : K)
  | goChannel (b : G)
  deriving DecidableEq, Repr

/-- The type `eaa.Context`, whose declaration is not among the available
sources: its field `MsgBrokerCtx` (nil in the zero value) and the rest of its
content `C`. -/
structure Context (C K G : Type) where
  MsgBrokerCtx : Option (MsgBroker K G)
  rest : C

/-- The functions of package `eaa` that `runEaa` calls and that are not among the
available sources, as parameters.  Each receives `&eaaCtx` and may update it;
a Go pair `(value, err)` is a pair of options. -/
structure Api (C K G : Type) where
  InitEaaContext : String → Context C K G → Option GoError × Context C K G
  NewKafkaMsgBroker : Context C K G → String → (Option K × Option GoError) × Context C K G
  NewGoChannelMsgBroker : Context C K G → G × Context C K G
  RunServer : Context C K G → Option GoError × Context C K G

/-- What the goroutine started by `runEaa` does, in order: the calls it makes,
the assignments to `eaaCtx.MsgBrokerCtx`, and the values it sends on the two
channels. -/
inductive RunEvent (K G : Type) where
  | InitEaaContext (path : String) (err : Option GoError)
  | NewKafkaMsgBroker (consumer : String) (err : Option GoError)
  | NewGoChannelMsgBroker
  | setMsgBrokerCtx (b : Option (MsgBroker K G))
  | RunServer (broker : Option (MsgBroker K G)) (err : Option GoError)
  | sendRunSuccess (v : Bool)
  | sendStopIndication (v : Bool)
  deriving DecidableEq, Repr

/-- The two statements after the label `fail:` in `runEaa`. -/
def failEvents (K G : Type) : List (RunEvent K G) :=
  [RunEvent.sendRunSuccess false, RunEvent.sendStopIndication true]

/-- The body of the goroutine started by `runEaa`, for the suite configuration
`cfg.MsgBrokerBackend.Type = backendType` and the temporary directory
`tempdir`, starting from the zero value `eaaCtx0` of `eaa.Context`.  The
result is the sequence of events and the final value of the variable `eaaErr`
(`eaaErr0` before).  Logging is left out; the waiting half (`waitForEAA`) is
not part of this function. -/
def runEaa {C K G : Type} (api : Api C K G) (backendType : String) (tempdir : String)
    (eaaCtx0 : Context C K G) (eaaErr0 : Option GoError) :
    List (RunEvent K G) × Option GoError :=
  let path := tempdir ++ "/configs/eaa.json"
  let i := api.InitEaaContext path eaaCtx0
  match i.1 with
  | some err => (RunEvent.InitEaaContext path (some err) :: failEvents K G, eaaErr0)
  | none =>
    if backendType = KafkaBackend then
      let k := api.NewKafkaMsgBroker i.2 "eaa_test_consumer"
      let ctx : Context C K G := { k.2 with MsgBrokerCtx := k.1.1.map MsgBroker.kafka }
      match k.1.2 with
      | some err =>
        (RunEvent.InitEaaContext path none
          :: RunEvent.NewKafkaMsgBroker "eaa_test_consumer" (some err)
          :: RunEvent.setMsgBrokerCtx ctx.MsgBrokerCtx
          :: failEvents K G, eaaErr0)
      | none =>
        let r := api.RunServer ctx
        ([RunEvent.InitEaaContext path none,
          RunEvent.NewKafkaMsgBroker "eaa_test_consumer" none,
          RunEvent.setMsgBrokerCtx ctx.MsgBrokerCtx,
          RunEvent.RunServer ctx.MsgBrokerCtx r.1,
          RunEvent.sendStopIndication true], r.1)
    else if backendType = GochannelsBackend then
      let g := api.NewGoChannelMsgBroker i.2
      let ctx : Context C K G := { g.2 with MsgBrokerCtx := some (MsgBroker.goChannel g.1) }
      let r := api.RunServer ctx
      ([RunEvent.InitEaaContext path none,
        RunEvent.NewGoChannelMsgBroker,
        RunEvent.setMsgBrokerCtx ctx.MsgBrokerCtx,
        RunEvent.RunServer ctx.MsgBrokerCtx r.1,
        RunEvent.sendStopIndication true], r.1)
    else
      (RunEvent.InitEaaContext path none :: failEvents K G, eaaErr0)

/-- Whether an event is the call of `RunServer`. -/
def RunEvent.isRunServer {K G : Type} : RunEvent K G → Bool
  | RunEvent.RunServer _ _ => true
  | _ => false

/-- The values assigned to `eaaCtx.MsgBrokerCtx` in a sequence of events, in
order. -/
def installs {K G : Type} (tr : List (RunEvent K G)) : List (Option (MsgBroker K G)) :=
  tr.filterMap (fun ev =>
    match ev with
    | RunEvent.setMsgBrokerCtx b => some b
    | _ => none)

/-- The events that precede the first call of `RunServer`. -/
def beforeRunServer {K G : Type} (tr : List (RunEvent K G)) : List (RunEvent K G) :=
  tr.takeWhile (fun ev => !ev.isRunServer)

/-- A stand-in for package `eaa` in concrete runs: `InitEaaContext` fails on the
path `"bad/configs/eaa.json"`, the Kafka constructor fails when the context
carries no broker address, `RunServer` returns without error. -/
def sampleApi : Api String Nat Nat where
  InitEaaContext := fun path ctx =>
    if path = "bad/configs/eaa.json" then (some (GoError.msg "no such file"), ctx)
    else (none, { ctx with rest := "localhost:9092" })
  NewKafkaMsgBroker := fun ctx _ =>
    if ctx.rest = "" then ((none, some (GoError.msg "no broker address")), ctx)
    else ((some 1, none), ctx)
  NewGoChannelMsgBroker := fun ctx => (2, ctx)
  RunServer := fun ctx => (none, ctx)

/-- The variable `responseFromEva` of the test suite. -/
def responseFromEva : String := "testapp"

/-- The fake validation service of the test suite,
`FakeIPAppLookupServiceServerImpl.GetApplicationByIP`: it answers every IP
address with `responseFromEva`. -/
def GetApplicationByIP (_ipAddress : String) : LookupResult :=
  LookupResult.found responseFromEva

/-- A stand-in backend for concrete runs: it counts the notifications handed to
it and accepts every one. -/
def sampleBackendPublish (_t : Namespace × Topic) (_p : Payload) (n : Nat) : Bool × Nat :=
  (true, n + 1)

/-! ## Suite configuration and `generateConfigs` (`pkg/eaa/eaa_suite_test.go`) -/

/-- The type `MsgBrokerBackend` of the test suite; its field `Type` is `Typ` here. -/
structure MsgBrokerBackend where
  Typ : String
  URL : String
  deriving DecidableEq, Repr

/-- The type `EAATestSuiteConfig`. -/
structure EAATestSuiteConfig where
  Dir : String
  TLSEndpoint : String
  ValidationEndpoint : String
  ApplianceTimeoutSec : Int
  MsgBrokerBackend : MsgBrokerBackend
  deriving DecidableEq, Repr

/-- The package variables set by `BeforeSuite` that `generateConfigs` reads. -/
structure TempPaths where
  tempdir : String
  tempConfCaRootKeyPath : String
  tempConfCaRootPath : String
  tempConfServerCertPath : String
  tempConfServerKeyPath : String
  deriving DecidableEq, Repr

/-- The constant `EaaCommonName`. -/
def EaaCommonName : String := "eaa.openness"

/-- The local variable `kafkaBrokerURL` of `generateConfigs`. -/
def kafkaBrokerURL (cfg : EAATestSuiteConfig) : String :=
  if cfg.MsgBrokerBackend.Typ = KafkaBackend then cfg.MsgBrokerBackend.URL else ""

/-- The local variable `eaaCfg` of `generateConfigs`: the text of `eaa.json`, the
raw string literals of the source joined with the configured values (the
braces of the text are written as the escapes `\x7b` and `\x7d`). -/
def eaaCfg (cfg : EAATestSuiteConfig) (t : TempPaths) : String :=
  "\x7b\n\t\t\"TlsEndpoint\": \"" ++ cfg.TLSEndpoint ++
  "\",\n\t\t\"ValidationEndpoint\": \"" ++ cfg.ValidationEndpoint ++
  "\",\n\t\t\"Certs\": \x7b\n\t\t\t\"CaRootKeyPath\": \"" ++ t.tempConfCaRootKeyPath ++
  "\",\n\t\t\t\"CaRootPath\": \"" ++ t.tempConfCaRootPath ++
  "\",\n\t\t\t\"ServerCertPath\": \"" ++ t.tempConfServerCertPath ++
  "\",\n\t\t\t\"ServerKeyPath\": \"" ++ t.tempConfServerKeyPath ++
  "\",\n\t\t\t\"CommonName\": \"" ++ EaaCommonName ++
  "\"\n\t\t\x7d,\n\t\t\"KafkaBroker\": \"" ++ kafkaBrokerURL cfg ++
  "\"\n\t\x7d"

/-- A file-system operation issued by `generateConfigs`. -/
inductive FsOp where
  | MkdirAll (path : String) (perm : Nat)
  | copyFile (src : String) (dst : String)
  | WriteFile (path : String) (data : String) (perm : Nat)
  deriving DecidableEq, Repr

/-- The loop of `generateConfigs` over the entries of the configuration
directory: every file but `eaa.json` is copied; a failing copy ends the run
(the `Expect` in `copyFile` fails).  The result is the operations issued and
whether the loop completed. -/
def copyConfigs (cfg : EAATestSuiteConfig) (t : TempPaths) (copyFails : String → Bool) :
    List String → List FsOp × Bool
  | [] => ([], true)
  | name :: rest =>
    if name ≠ "eaa.json" then
      let op := FsOp.copyFile (cfg.Dir ++ "/configs/" ++ name) (t.tempdir ++ "/configs/" ++ name)
      if copyFails name then ([op], false)
      else ((op :: (copyConfigs cfg t copyFails rest).1), (copyConfigs cfg t copyFails rest).2)
    else copyConfigs cfg t copyFails rest

/-- The function `generateConfigs`: the file-system operations it issues, in
order, and whether it ran to its end.  `files` is the result of
`ioutil.ReadDir(cfg.Dir + "/configs/")` (the names of the entries),
`copyFails` tells which copies fail, `writeFails` whether writing `eaa.json`
fails; a failed `Expect` ends the run. -/
def generateConfigs (cfg : EAATestSuiteConfig) (t : TempPaths)
    (files : Except GoError (List String)) (copyFails : String → Bool) (writeFails : Bool) :
    List FsOp × Bool :=
  match files with
  | Except.error _ => ([FsOp.MkdirAll (t.tempdir ++ "/configs") 0o755], false)
  | Except.ok names =>
    let c := copyConfigs cfg t copyFails names
    if c.2 then
      (FsOp.MkdirAll (t.tempdir ++ "/configs") 0o755 :: c.1 ++
        [FsOp.WriteFile (t.tempdir ++ "/configs/eaa.json") (eaaCfg cfg t) 0o644], !writeFails)
    else (FsOp.MkdirAll (t.tempdir ++ "/configs") 0o755 :: c.1, false)

/-! ## Reading `eaa.json` back (`pkg/eaa/config.go`) -/

/-- The type `CertsInfo`. -/
structure CertsInfo where
  CaRootKeyPath : String
  CaRootPath : String
  ServerCertPath : String
  ServerKeyPath : String
  CommonName : String
  KafkaCAPath : String
  KafkaUserCertPath : String
  KafkaUserKeyPath : String
  deriving DecidableEq, Repr

/-- The type `Config`; `D` stands for `util.Duration`, whose declaration is not
among the available sources. -/
structure Config (D : Type) where
  TLSEndpoint : String
  OpenEndpoint : String
  ValidationEndpoint : String
  HeartbeatInterval : D
  Certs : CertsInfo
  KafkaBroker : String
  deriving DecidableEq, Repr

/-- A JSON value of one of the two forms that occur in `eaa.json`: a string or an
object, the members of an object in the order of the text. -/
inductive Json where
  | str (s : String)
  | obj (members : List (String × Json))

/-- What the scanner expects next. -/
inductive Mode where
  | value
  | firstKey
  | key
  | colon
  | next
  | done
  | string (isKey : Bool) (buf : List Char)
  | escape (isKey : Bool) (buf : List Char)

/-- An object whose closing brace has not been read: its members so far and the
key of the member being read. -/
structure Frame where
  members : List (String × Json)
  key : String

/-- The state of the scanner of JSON text, which reads one character at a time as
the scanner of `encoding/json` does: scanning with the open objects and the
finished top-level value, or stopped by a syntax error, or stopped by JSON
outside the forms modelled here (numbers, arrays, literals, `\u` escapes). -/
inductive Scan where
  | run (mode : Mode) (stack : List Frame) (result : Option Json)
  | syntaxError
  | unsupported

/-- The white-space characters of JSON. -/
def isJsonSpace (c : Char) : Bool :=
  c = ' ' || c = '\t' || c = '\n' || c = '\r'

/-- A value has been read completely: it becomes the top-level value, or a member
of the innermost open object. -/
def Scan.finish (v : Json) : List Frame → Scan
  | [] => Scan.run Mode.done [] (some v)
  | f :: rest =>
    Scan.run Mode.next ({ f with members := f.members ++ [(f.key, v)] } :: rest) none

/-- The closing brace of the innermost open object has been read. -/
def Scan.close : List Frame → Scan
  | [] => Scan.syntaxError
  | f :: rest => Scan.finish (Json.obj f.members) rest

/-- One step of the scanner. -/
def Scan.step : Scan → Char → Scan
  | Scan.run mode stack result, c =>
    match mode with
    | Mode.string isKey buf =>
      if c = '"' then
        if isKey then
          match stack with
          | [] => Scan.syntaxError
          | f :: rest => Scan.run Mode.colon ({ f with key := String.mk buf } :: rest) result
        else Scan.finish (Json.str (String.mk buf)) stack
      else if c = '\\' then Scan.run (Mode.escape isKey buf) stack result
      else if c.val < 0x20 then Scan.syntaxError
      else Scan.run (Mode.string isKey (buf ++ [c])) stack result
    | Mode.escape isKey buf =>
      if c = '"' then Scan.run (Mode.string isKey (buf ++ ['"'])) stack result
      else if c = '\\' then Scan.run (Mode.string isKey (buf ++ ['\\'])) stack result
      else if c = '/' then Scan.run (Mode.string isKey (buf ++ ['/'])) stack result
      else if c = 'b' then Scan.run (Mode.string isKey (buf ++ [Char.ofNat 8])) stack result
      else if c = 'f' then Scan.run (Mode.string isKey (buf ++ [Char.ofNat 12])) stack result
      else if c = 'n' then Scan.run (Mode.string isKey (buf ++ ['\n'])) stack result
      else if c = 'r' then Scan.run (Mode.string isKey (buf ++ ['\r'])) stack result
      else if c = 't' then Scan.run (Mode.string isKey (buf ++ ['\t'])) stack result
      else if c = 'u' then Scan.unsupported
      else Scan.syntaxError
    | Mode.value =>
      if isJsonSpace c then Scan.run Mode.value stack result
      else if c = '"' then Scan.run (Mode.string false []) stack result
      else if c = '{' then Scan.run Mode.firstKey (⟨[], ""⟩ :: stack) result
      else if c = '[' || c = '-' || c.isDigit || c = 't' || c = 'f' || c = 'n' then
        Scan.unsupported
      else Scan.syntaxError
    | Mode.firstKey =>
      if isJsonSpace c then Scan.run Mode.firstKey stack result
      else if c = '"' then Scan.run (Mode.string true []) stack result
      else if c = '}' then Scan.close stack
      else Scan.syntaxError
    | Mode.key =>
      if isJsonSpace c then Scan.run Mode.key stack result
      else if c = '"' then Scan.run (Mode.string true []) stack result
      else Scan.syntaxError
    | Mode.colon =>
      if isJsonSpace c then Scan.run Mode.colon stack result
      else if c = ':' then Scan.run Mode.value stack result
      else Scan.syntaxError
    | Mode.next =>
      if isJsonSpace c then Scan.run Mode.next stack result
      else if c = ',' then Scan.run Mode.key stack result
      else if c = '}' then Scan.close stack
      else Scan.syntaxError
    | Mode.done =>
      if isJsonSpace c then Scan.run Mode.done stack result
      else Scan.syntaxError
  | Scan.syntaxError, _ => Scan.syntaxError
  | Scan.unsupported, _ => Scan.unsupported

/-- The result of decoding: a value, a syntax error, a value of the wrong JSON
type for its field, or input outside the forms modelled here. -/
inductive Decoded (α : Type) where
  | ok (v : α)
  | syntaxError
  | typeError
  | unsupported
  deriving DecidableEq, Repr

/-- The JSON value of a text. -/
def Json.parse (text : String) : Decoded Json :=
  match text.data.foldl Scan.step (Scan.run Mode.value [] none) with
  | Scan.run Mode.done [] (some v) => Decoded.ok v
  | Scan.run _ _ _ => Decoded.syntaxError
  | Scan.syntaxError => Decoded.syntaxError
  | Scan.unsupported => Decoded.unsupported

/-- Whether a key of the text names the field with JSON name `name`:
`encoding/json` accepts the exact name and the name under case folding (keys
of ASCII characters only; others are outside the model). -/
def keyIs (key name : String) : Bool :=
  key.data.map Char.toLower = name.data.map Char.toLower

/-- Whether a key is inside the model: ASCII characters only. -/
def keyAscii (key : String) : Bool :=
  key.data.all (fun c => c.val < 128)

/-- A string value is stored in a string field; an object is a type error. -/
def Json.asString : Json → Decoded String
  | Json.str s => Decoded.ok s
  | Json.obj _ => Decoded.typeError

/-- One member of the object `Certs` is stored in its field of `CertsInfo`;
unknown keys are ignored. -/
def CertsInfo.set (c : Decoded CertsInfo) (m : String × Json) : Decoded CertsInfo :=
  match c with
  | Decoded.ok c =>
    if !keyAscii m.1 then Decoded.unsupported
    else if keyIs m.1 "CaRootKeyPath" then
      match m.2.asString with
      | Decoded.ok s => Decoded.ok { c with CaRootKeyPath := s }
      | _ => Decoded.typeError
    else if keyIs m.1 "CaRootPath" then
      match m.2.asString with
      | Decoded.ok s => Decoded.ok { c with CaRootPath := s }
      | _ => Decoded.typeError
    else if keyIs m.1 "ServerCertPath" then
      match m.2.asString with
      | Decoded.ok s => Decoded.ok { c with ServerCertPath := s }
      | _ => Decoded.typeError
    else if keyIs m.1 "ServerKeyPath" then
      match m.2.asString with
      | Decoded.ok s => Decoded.ok { c with ServerKeyPath := s }
      | _ => Decoded.typeError
    else if keyIs m.1 "CommonName" then
      match m.2.asString with
      | Decoded.ok s => Decoded.ok { c with CommonName := s }
      | _ => Decoded.typeError
    else if keyIs m.1 "KafkaCAPath" then
      match m.2.asString with
      | Decoded.ok s => Decoded.ok { c with KafkaCAPath := s }
      | _ => Decoded.typeError
    else if keyIs m.1 "KafkaUserCertPath" then
      match m.2.asString with
      | Decoded.ok s => Decoded.ok { c with KafkaUserCertPath := s }
      | _ => Decoded.typeError
    else if keyIs m.1 "KafkaUserKeyPath" then
      match m.2.asString with
      | Decoded.ok s => Decoded.ok { c with KafkaUserKeyPath := s }
      | _ => Decoded.typeError
    else Decoded.ok c
  | other => other

/-- One member of the top-level object is stored in its field of `Config`; unknown
keys are ignored; `HeartbeatInterval` has a decoder of its own, which is not
among the available sources. -/
def Config.set {D : Type} (c : Decoded (Config D)) (m : String × Json) : Decoded (Config D) :=
  match c with
  | Decoded.ok c =>
    if !keyAscii m.1 then Decoded.unsupported
    else if keyIs m.1 "TlsEndpoint" then
      match m.2.asString with
      | Decoded.ok s => Decoded.ok { c with TLSEndpoint := s }
      | _ => Decoded.typeError
    else if keyIs m.1 "OpenEndpoint" then
      match m.2.asString with
      | Decoded.ok s => Decoded.ok { c with OpenEndpoint := s }
      | _ => Decoded.typeError
    else if keyIs m.1 "ValidationEndpoint" then
      match m.2.asString with
      | Decoded.ok s => Decoded.ok { c with ValidationEndpoint := s }
      | _ => Decoded.typeError
    else if keyIs m.1 "HeartbeatInterval" then Decoded.unsupported
    else if keyIs m.1 "Certs" then
      match m.2 with
      | Json.obj members =>
        match members.foldl CertsInfo.set (Decoded.ok c.Certs) with
        | Decoded.ok certs => Decoded.ok { c with Certs := certs }
        | Decoded.syntaxError => Decoded.syntaxError
        | Decoded.typeError => Decoded.typeError
        | Decoded.unsupported => Decoded.unsupported
      | Json.str _ => Decoded.typeError
    else if keyIs m.1 "KafkaBroker" then
      match m.2.asString with
      | Decoded.ok s => Decoded.ok { c with KafkaBroker := s }
      | _ => Decoded.typeError
    else Decoded.ok c
  | other => other

/-- The call `json.Unmarshal(text, &c)` for a `Config` `c`: the members of the
top-level object are stored in order, so that the last of several members of
one name wins and fields without a member keep their value. -/
def Unmarshal {D : Type} (text : String) (c : Config D) : Decoded (Config D) :=
  match Json.parse text with
  | Decoded.ok (Json.obj members) => members.foldl Config.set (Decoded.ok c)
  | Decoded.ok (Json.str _) => Decoded.typeError
  | Decoded.syntaxError => Decoded.syntaxError
  | Decoded.typeError => Decoded.typeError
  | Decoded.unsupported => Decoded.unsupported

/-- Whether a string can stand between the quotes of a JSON string as it is: no
double quote, no backslash, no control character. -/
def jsonPlain (s : String) : Bool :=
  s.data.all (fun c => c != '"' && c != '\\' && !(c.val < 0x20))

/-- The default suite configuration `cfg` of the test suite. -/
def defaultCfg : EAATestSuiteConfig :=
  ⟨"../../", "localhost:48080", "localhost:42555", 2, ⟨GochannelsBackend, ""⟩⟩

/-- Paths as `BeforeSuite` sets them for the temporary directory `/tmp/eaa`. -/
def samplePaths : TempPaths :=
  ⟨"/tmp/eaa", "/tmp/eaa/certs/eaa/rootCA.key", "/tmp/eaa/certs/eaa/rootCA.pem",
   "/tmp/eaa/certs/eaa/server.pem", "/tmp/eaa/certs/eaa/server.key"⟩

/-- A suite configuration for the Kafka backend whose URL holds a double quote. -/
def quoteCfg : EAATestSuiteConfig :=
  ⟨"../../", "localhost:48080", "localhost:42555", 2, ⟨KafkaBackend, "k\"x"⟩⟩

/-- A suite configuration for the Kafka backend whose URL closes the JSON string
and opens a second member `KafkaBroker`. -/
def secondMemberCfg : EAATestSuiteConfig :=
  ⟨"../../", "localhost:48080", "localhost:42555", 2,
   ⟨KafkaBackend, "a\", \"KafkaBroker\": \"b"⟩⟩

/-- A suite configuration for the Kafka backend at `broker:9092`. -/
def kafkaCfg : EAATestSuiteConfig :=
  ⟨"../../", "localhost:48080", "localhost:42555", 2, ⟨KafkaBackend, "broker:9092"⟩⟩

/-- A zero value of `Config` with a number for the heartbeat interval. -/
def zeroConfig : Config Nat :=
  ⟨"", "", "", 0, ⟨"", "", "", "", "", "", "", ""⟩, ""⟩

end EAA

namespace InterfaceService

/-! ## Host interface service (`pkg/interfaceservice`) -/

/-- The message `pb.Port`, whose declaration is not among the available sources:
the field `Pci`, the only one the available code reads, and the remaining
fields as a value of `F`. -/
structure Port (F : Type) where
  Pci : String
  fields : F
  deriving DecidableEq, Repr

/-- The message `pb.Ports`. -/
structure Ports (F : Type) where
  Ports : List (Port F)
  deriving DecidableEq, Repr

/-- The predicate `unicode.IsSpace`: the white-space characters of Unicode. -/
def isSpace (c : Char) : Bool :=
  c.val = 0x09 || c.val = 0x0A || c.val = 0x0B || c.val = 0x0C || c.val = 0x0D ||
  c.val = 0x20 || c.val = 0x85 || c.val = 0xA0 || c.val = 0x1680 ||
  (0x2000 ≤ c.val && c.val ≤ 0x200A) || c.val = 0x2028 || c.val = 0x2029 ||
  c.val = 0x202F || c.val = 0x205F || c.val = 0x3000

/-- The function `strings.TrimSpace`: the string without its leading and trailing
white space. -/
def TrimSpace (s : String) : String :=
  String.mk ((s.data.dropWhile isSpace).rdropWhile isSpace)

/-- A call made by the code of `detach_interface.go`, with what it returned. -/
inductive Cmd where
  | getPortName (pci : String) (name : String) (err : Option GoError)
  | Vsctl (args : List String) (output : String) (err : Option GoError)
  deriving DecidableEq, Repr

/-- A step of `Get`, `Attach` or `Detach`: a call of one of the functions they
invoke, with the port passed and the error returned. -/
inductive Step (F : Type) where
  | updateDPDKDevbindOutput
  | getPorts (err : Option GoError)
  | validatePort (port : Port F) (err : Option GoError)
  | attachPortToOvs (port : Port F) (err : Option GoError)
  | detachPortFromOvs (port : Port F) (err : Option GoError)
  | bindDriver (port : Port F) (err : Option GoError)
  deriving DecidableEq, Repr

/-- The functions the service calls whose bodies are not among the available
sources, as parameters acting on the state `W` of the host (bridges, drivers,
cached tool output).  A Go result `(value, err)` is a pair.  `Vsctl` is the
package variable of that name; `CombinedOutput name args` stands for
`exec.Command(name, args...).CombinedOutput()` and `Sprintf` for
`fmt.Sprintf`. -/
structure Helpers (F W : Type) where
  Sprintf : String → List String → String
  CombinedOutput : String → List String → W → (String × Option GoError) × W
  Vsctl : List String → W → (String × Option GoError) × W
  updateDPDKDevbindOutput : W → W
  getPorts : W → (List (Port F) × List String × Option GoError) × W
  validatePort : Port F → W → Option GoError × W
  attachPortToOvs : Port F → W → Option GoError × W
  getPortName : String → W → (String × Option GoError) × W
  bindDriver : Port F → W → Option GoError × W

/-- The function `vsctl`: it runs `exec.Command("sudo", args...)` and returns the
combined output. -/
def vsctl {F W : Type} (H : Helpers F W) (args : List String) (w : W) :
    (String × Option GoError) × W :=
  H.CombinedOutput "sudo" args w

/-- The function `devbind`: it runs `exec.Command("sudo", args...)` and returns
the combined output. -/
def devbind {F W : Type} (H : Helpers F W) (args : List String) (w : W) :
    (String × Option GoError) × W :=
  H.CombinedOutput "sudo" args w

/-- The result of a service call: the error returned, the state of the host
afterwards, the steps taken and the commands issued by `detachPortFromOvs`,
both in order. -/
structure Outcome (F W : Type) where
  err : Option GoError
  world : W
  steps : List (Step F)
  cmds : List Cmd

/-- The function `detachPortFromOvs`: it looks up the port name of `port.Pci`
and runs `ovs-vsctl del-port` on the trimmed name; a failure of the command is
wrapped with the command output as message.  The result holds the error, the
commands issued and the state of the host. -/
def detachPortFromOvs {F W : Type} (H : Helpers F W) (port : Port F) (w : W) :
    (Option GoError × List Cmd) × W :=
  let n := H.getPortName port.Pci w
  match n.1.2 with
  | some err => ((some err, [Cmd.getPortName port.Pci n.1.1 (some err)]), n.2)
  | none =>
    let args := ["ovs-vsctl", "del-port", TrimSpace n.1.1]
    let v := H.Vsctl args n.2
    match v.1.2 with
    | none =>
      ((none, [Cmd.getPortName port.Pci n.1.1 none, Cmd.Vsctl args v.1.1 none]), v.2)
    | some err =>
      ((some (GoError.wrapf err v.1.1 []),
        [Cmd.getPortName port.Pci n.1.1 none, Cmd.Vsctl args v.1.1 (some err)]), v.2)

/-- The loop `for _, port := range ports.Ports` of `Attach` and `Detach` around a
body that handles one port: the ports are handled in list order, and an error
of the body ends the call at once (`return &empty.Empty{}, err`). -/
def forEachPort {F W : Type} (body : Port F → W → Outcome F W) :
    List (Port F) → W → Outcome F W
  | [], w => { err := none, world := w, steps := [], cmds := [] }
  | port :: rest, w =>
    let r := body port w
    match r.err with
    | some _ => r
    | none =>
      let t := forEachPort body rest r.world
      { t with steps := r.steps ++ t.steps, cmds := r.cmds ++ t.cmds }

/-- The body of the loop of `Attach` for one port: the port is validated, then
attached, each `if err := ...; err != nil` returning the error. -/
def attachPort {F W : Type} (H : Helpers F W) (port : Port F) (w : W) : Outcome F W :=
  let v := H.validatePort port w
  match v.1 with
  | some err =>
    { err := some err, world := v.2, steps := [Step.validatePort port (some err)], cmds := [] }
  | none =>
    let a := H.attachPortToOvs port v.2
    { err := a.1, world := a.2,
      steps := [Step.validatePort port none, Step.attachPortToOvs port a.1], cmds := [] }

/-- The method `InterfaceService.Attach` on the ports of the request.  The
`*empty.Empty` it returns is `&empty.Empty{}` on every path and is left out,
as is logging. -/
def Attach {F W : Type} (H : Helpers F W) (ports : Ports F) (w : W) : Outcome F W :=
  let r := forEachPort (attachPort H) ports.Ports (H.updateDPDKDevbindOutput w)
  { r with steps := Step.updateDPDKDevbindOutput :: r.steps }

/-- The body of the loop of `Detach` for one port: the port is validated, removed
from the bridge, and its driver bound, each `if err := ...; err != nil`
returning the error. -/
def detachPort {F W : Type} (H : Helpers F W) (port : Port F) (w : W) : Outcome F W :=
  let v := H.validatePort port w
  match v.1 with
  | some err =>
    { err := some err, world := v.2, steps := [Step.validatePort port (some err)], cmds := [] }
  | none =>
    let d := detachPortFromOvs H port v.2
    match d.1.1 with
    | some err =>
      { err := some err, world := d.2,
        steps := [Step.validatePort port none, Step.detachPortFromOvs port (some err)],
        cmds := d.1.2 }
    | none =>
      let b := H.bindDriver port d.2
      { err := b.1, world := b.2,
        steps := [Step.validatePort port none, Step.detachPortFromOvs port none,
                  Step.bindDriver port b.1],
        cmds := d.1.2 }

/-- The method `InterfaceService.Detach` on the ports of the request.  The
`*empty.Empty` it returns is `&empty.Empty{}` on every path and is left out,
as is logging. -/
def Detach {F W : Type} (H : Helpers F W) (ports : Ports F) (w : W) : Outcome F W :=
  let r := forEachPort (detachPort H) ports.Ports (H.updateDPDKDevbindOutput w)
  { r with steps := Step.updateDPDKDevbindOutput :: r.steps }

/-- The method `InterfaceService.Get`: the pair it returns (`none` for a nil
`*pb.Ports`), the state of the host afterwards and the steps taken.  Logging
is left out. -/
def Get {F W : Type} (H : Helpers F W) (w : W) :
    (Option (Ports F) × Option GoError) × W × List (Step F) :=
  let g := H.getPorts (H.updateDPDKDevbindOutput w)
  match g.1.2.2 with
  | some err =>
    ((none, some (GoError.wrapf err "Failed to get ports %s" [err.Error H.Sprintf])),
     g.2, [Step.updateDPDKDevbindOutput, Step.getPorts (some err)])
  | none =>
    ((some { Ports := g.1.1 }, none),
     g.2, [Step.updateDPDKDevbindOutput, Step.getPorts none])

/-- The steps of a port that `Attach` handled completely. -/
def attached {F : Type} (port : Port F) : List (Step F) :=
  [Step.validatePort port none, Step.attachPortToOvs port none]

/-- The steps of a port that `Detach` handled completely. -/
def detached {F : Type} (port : Port F) : List (Step F) :=
  [Step.validatePort port none, Step.detachPortFromOvs port none, Step.bindDriver port none]

/-- The host state after the ports of a list have each been validated and then
attached, from left to right. -/
def attachedState {F W : Type} (H : Helpers F W) (ports : List (Port F)) (w : W) : W :=
  ports.foldl (fun w port => (H.attachPortToOvs port (H.validatePort port w).2).2) w

/-- The host state after the ports of a list have each been validated, removed
from the bridge and had their driver bound, from left to right. -/
def detachedState {F W : Type} (H : Helpers F W) (ports : List (Port F)) (w : W) : W :=
  ports.foldl
    (fun w port =>
      (H.bindDriver port (detachPortFromOvs H port (H.validatePort port w).2).2).2) w

/-- The state of a host in concrete runs: the names of the ports on the bridge
and the PCI addresses whose driver has been bound. -/
structure Host where
  bridge : List String
  bound : List String
  deriving DecidableEq, Repr

/-- Stand-ins for the helper functions in concrete runs, over ports whose other
fields are a driver number.  Validation rejects an empty PCI address; the port
of PCI address `a` is named `eth-a`; `ovs-vsctl del-port name` removes `name`
from the bridge and fails when it is not there; attaching adds the name to the
bridge; binding a driver records the PCI address. -/
def sampleHelpers : Helpers Nat Host where
  Sprintf := fun format _ => format
  CombinedOutput := fun _ _ w => (("", none), w)
  Vsctl := fun args w =>
    match args with
    | ["ovs-vsctl", "del-port", name] =>
      if name ∈ w.bridge then (("", none), { w with bridge := w.bridge.erase name })
      else (("no port named " ++ name, some (GoError.msg "exit status 1")), w)
    | _ => (("", none), w)
  updateDPDKDevbindOutput := fun w => w
  getPorts := fun w => ((w.bridge.map (fun n => ⟨n, 0⟩), w.bridge, none), w)
  validatePort := fun port w =>
    if port.Pci = "" then (some (GoError.msg "PCI address is empty"), w) else (none, w)
  attachPortToOvs := fun port w => (none, { w with bridge := w.bridge ++ ["eth-" ++ port.Pci] })
  getPortName := fun pci w => (("eth-" ++ pci ++ "\n", none), w)
  bindDriver := fun port w => (none, { w with bound := w.bound ++ [port.Pci] })

/-- One execution of a program: the arguments of `exec.Command(name, arg...)`. -/
structure Exec where
  name : String
  arg : List String
  deriving DecidableEq, Repr

/-- The helpers `H` over a host state that also records, in order, every
`exec.Command(name, arg...)` whose combined output is taken. -/
def Helpers.recording {F W : Type} (H : Helpers F W) : Helpers F (W × List Exec) where
  Sprintf := H.Sprintf
  CombinedOutput := fun name arg s =>
    ((H.CombinedOutput name arg s.1).1, ((H.CombinedOutput name arg s.1).2, s.2 ++ [⟨name, arg⟩]))
  Vsctl := fun args s => ((H.Vsctl args s.1).1, ((H.Vsctl args s.1).2, s.2))
  updateDPDKDevbindOutput := fun s => (H.updateDPDKDevbindOutput s.1, s.2)
  getPorts := fun s => ((H.getPorts s.1).1, ((H.getPorts s.1).2, s.2))
  validatePort := fun port s => ((H.validatePort port s.1).1, ((H.validatePort port s.1).2, s.2))
  attachPortToOvs := fun port s =>
    ((H.attachPortToOvs port s.1).1, ((H.attachPortToOvs port s.1).2, s.2))
  getPortName := fun pci s => ((H.getPortName pci s.1).1, ((H.getPortName pci s.1).2, s.2))
  bindDriver := fun port s => ((H.bindDriver port s.1).1, ((H.bindDriver port s.1).2, s.2))

/-- The helpers with the package variable `Vsctl` at its initial value, the
function `vsctl` (`Vsctl = vsctl` in the `var` block). -/
def Helpers.initial {F W : Type} (H : Helpers F W) : Helpers F W :=
  { H with Vsctl := vsctl H }

end InterfaceService

/-! # Theorems -/

namespace EAA

/-- C1: `RegisterNamespace(a, n)` succeeds on a namespace that does not exist and
makes `a` its owner; on a namespace owned by `a` it succeeds and leaves the
registry unchanged (idempotent); for any `b ≠ a` it fails with
`NamespaceConflict` and leaves the registry, hence the owner `a`, unchanged. -/
theorem RegisterNamespace_idempotent_and_conflict (a : AppID) (n : Namespace) :
    (∀ r : Registry, r.owner n = none →
      (RegisterNamespace a n r).1 = none ∧ (RegisterNamespace a n r).2.owner n = some a ∧
      RegisterNamespace a n (RegisterNamespace a n r).2 = (none, (RegisterNamespace a n r).2)) ∧
    (∀ r : Registry, r.owner n = some a → RegisterNamespace a n r = (none, r)) ∧
    (∀ (r : Registry) (b : AppID), r.owner n = some a → b ≠ a →
      RegisterNamespace b n r = (some ErrorKind.NamespaceConflict, r) ∧
      (RegisterNamespace b n r).2.owner n = some a) := by
  have same : ∀ r : Registry, r.owner n = some a → RegisterNamespace a n r = (none, r) := by
    intro r h
    simp [RegisterNamespace, h]
  have fresh : ∀ r : Registry, r.owner n = none →
      (RegisterNamespace a n r).2.owner n = some a := by
    intro r h
    have e : RegisterNamespace a n r = (none, { r with owners := (n, a) :: r.owners }) := by
      simp [RegisterNamespace, h]
    rw [e]
    simp [Registry.owner, List.lookup_cons]
  refine ⟨?_, same, ?_⟩
  · intro r h
    refine ⟨by simp [RegisterNamespace, h], fresh r h, same _ (fresh r h)⟩
  · intro r b h hb
    have hne : ¬ a = b := fun hab => hb hab.symm
    simp [RegisterNamespace, h, hne]

/-- C1, at a concrete registry: `"app1"` registers `"sensors"`, registers it
again, and `"app2"` is refused. -/
theorem RegisterNamespace_idempotent_and_conflict_witness :
    (RegisterNamespace "app1" "sensors" ⟨[], []⟩).1 = none ∧
    RegisterNamespace "app1" "sensors" ⟨[("sensors", "app1")], []⟩
      = (none, ⟨[("sensors", "app1")], []⟩) ∧
    RegisterNamespace "app2" "sensors" ⟨[("sensors", "app1")], []⟩
      = (some ErrorKind.NamespaceConflict, ⟨[("sensors", "app1")], []⟩) :=
  ⟨((RegisterNamespace_idempotent_and_conflict "app1" "sensors").1 ⟨[], []⟩ (by decide)).1,
   (RegisterNamespace_idempotent_and_conflict "app1" "sensors").2.1 ⟨[("sensors", "app1")], []⟩
     (by decide),
   ((RegisterNamespace_idempotent_and_conflict "app1" "sensors").2.2 ⟨[("sensors", "app1")], []⟩
     "app2" (by decide) (by decide)).1⟩

/-- C2: `Publish` returns `NamespaceNotFound` when the namespace is not registered
and `NotAuthorized` when it is owned by a different AppID, and in both cases
the broker state (registry, backend and the record of forwarded
notifications) is unchanged; a publish by the owner is forwarded to the
backend, and the record of forwarded notifications changes only then. -/
theorem Publish_rejects_before_backend {B : Type}
    (backendPublish : Namespace × Topic → Payload → B → Bool × B)
    (appID : AppID) (ns : Namespace) (topic : Topic) (payload : Payload) (s : Broker B) :
    (s.registry.owner ns = none →
      Publish backendPublish appID ns topic payload s = (some ErrorKind.NamespaceNotFound, s)) ∧
    (∀ o, s.registry.owner ns = some o → o ≠ appID →
      Publish backendPublish appID ns topic payload s = (some ErrorKind.NotAuthorized, s)) ∧
    (s.registry.owner ns = some appID →
      (Publish backendPublish appID ns topic payload s).2.forwarded
        = s.forwarded ++ [(ns, topic, payload)] ∧
      (Publish backendPublish appID ns topic payload s).2.backend
        = (backendPublish (ns, topic) payload s.backend).2 ∧
      (Publish backendPublish appID ns topic payload s).1
        = if (backendPublish (ns, topic) payload s.backend).1 then none
          else some ErrorKind.PublishFailed) ∧
    ((Publish backendPublish appID ns topic payload s).2.forwarded ≠ s.forwarded ↔
      s.registry.owner ns = some appID) := by
  refine ⟨?_, ?_, ?_, ?_⟩
  · intro h
    simp [Publish, h]
  · intro o h hne
    simp [Publish, h, hne]
  · intro h
    simp [Publish, h]
  · cases h : s.registry.owner ns with
    | none => simp [Publish, h]
    | some o =>
      by_cases ho : o = appID
      · subst ho
        simp [Publish, h]
      · simp [Publish, h, ho]

/-- C2, at a concrete broker: `"sensors"` is owned by `"app1"`; a publish to the
unregistered `"other"` and a publish by `"app2"` are refused and leave the
backend untouched, a publish by `"app1"` reaches it. -/
theorem Publish_rejects_before_backend_witness :
    Publish sampleBackendPublish "app1" "other" "temp" [52, 50] ⟨⟨[("sensors", "app1")], []⟩, 0, []⟩
      = (some ErrorKind.NamespaceNotFound, ⟨⟨[("sensors", "app1")], []⟩, 0, []⟩) ∧
    Publish sampleBackendPublish "app2" "sensors" "temp" [52, 50]
        ⟨⟨[("sensors", "app1")], []⟩, 0, []⟩
      = (some ErrorKind.NotAuthorized, ⟨⟨[("sensors", "app1")], []⟩, 0, []⟩) ∧
    (Publish sampleBackendPublish "app1" "sensors" "temp" [52, 50]
        ⟨⟨[("sensors", "app1")], []⟩, 0, []⟩).2.backend = 1 :=
  ⟨(Publish_rejects_before_backend sampleBackendPublish "app1" "other" "temp" [52, 50]
      ⟨⟨[("sensors", "app1")], []⟩, 0, []⟩).1 (by decide),
   (Publish_rejects_before_backend sampleBackendPublish "app2" "sensors" "temp" [52, 50]
      ⟨⟨[("sensors", "app1")], []⟩, 0, []⟩).2.1 "app1" (by decide) (by decide),
   ((Publish_rejects_before_backend sampleBackendPublish "app1" "sensors" "temp" [52, 50]
      ⟨⟨[("sensors", "app1")], []⟩, 0, []⟩).2.2.1 (by decide)).2.1⟩

/-- C3: a connection whose certificate carries a Common Name other than the
shared access name resolves to that Common Name and no lookup request is
issued; a connection with no certificate or with the shared access name issues
exactly one lookup request, for the peer's IP address, and resolves to the
AppID the validation service returns for it (to `IdentityUnresolved` when the
service returns none). -/
theorem Resolve_certificate_or_lookup (accessName : String) (lookup : String → LookupResult)
    (c : Connection) :
    (∀ cn, c.certCommonName = some cn → cn ≠ accessName →
      Resolve accessName lookup c = (Except.ok cn, [])) ∧
    ((c.certCommonName = none ∨ c.certCommonName = some accessName) →
      (Resolve accessName lookup c).2 = [c.peerIP] ∧
      (∀ a, lookup c.peerIP = LookupResult.found a →
        (Resolve accessName lookup c).1 = Except.ok a) ∧
      ((∀ a, lookup c.peerIP ≠ LookupResult.found a) →
        (Resolve accessName lookup c).1 = Except.error ErrorKind.IdentityUnresolved)) := by
  constructor
  · intro cn h hne
    simp [Resolve, h, hne]
  · intro h
    have key : Resolve accessName lookup c =
        match lookup c.peerIP with
        | LookupResult.found a => (Except.ok a, [c.peerIP])
        | _ => (Except.error ErrorKind.IdentityUnresolved, [c.peerIP]) := by
      rcases h with h | h <;> simp [Resolve, h]
    rw [key]
    cases hl : lookup c.peerIP <;> simp

/-- C3, with the fake validation service of the test suite and the access name
`"access"`: the certificate of `"app7"` resolves to `"app7"` without a lookup,
a connection without certificate resolves to `"testapp"`. -/
theorem Resolve_certificate_or_lookup_witness :
    Resolve "access" GetApplicationByIP ⟨some "app7", "10.0.0.7"⟩ = (Except.ok "app7", []) ∧
    (Resolve "access" GetApplicationByIP ⟨none, "10.0.0.8"⟩).1 = Except.ok "testapp" ∧
    (Resolve "access" GetApplicationByIP ⟨some "access", "10.0.0.9"⟩).2 = ["10.0.0.9"] :=
  ⟨(Resolve_certificate_or_lookup "access" GetApplicationByIP ⟨some "app7", "10.0.0.7"⟩).1
      "app7" rfl (by decide),
   ((Resolve_certificate_or_lookup "access" GetApplicationByIP ⟨none, "10.0.0.8"⟩).2
      (Or.inl rfl)).2.1 "testapp" rfl,
   ((Resolve_certificate_or_lookup "access" GetApplicationByIP ⟨some "access", "10.0.0.9"⟩).2
      (Or.inr rfl)).1⟩

/-- A step from `Dead` changes nothing. -/
theorem Engine.step_of_dead (e : Engine) (h : e.liveness = Liveness.Dead) (o : Observation) :
    e.step o = e := by
  cases o <;> simp [Engine.step, h]

/-- A run from `Dead` changes nothing. -/
theorem Engine.run_of_dead (e : Engine) (h : e.liveness = Liveness.Dead)
    (obs : List Observation) : e.run obs = e := by
  induction obs with
  | nil => rfl
  | cons o rest ih =>
    have hs : e.step o = e := Engine.step_of_dead e h o
    simpa [Engine.run, List.foldl_cons, hs] using ih

/-- A run over `a :: rest` is a step followed by the run over `rest`. -/
theorem Engine.run_cons (e : Engine) (o : Observation) (rest : List Observation) :
    e.run (o :: rest) = (e.step o).run rest := rfl

/-- C4: from `Alive`, one missed interval leads to `Suspected` (subscriptions
kept) and the connection is `Dead` after `n` missed intervals exactly when
`n ≥ 2`; on reaching `Dead` the registry holds none of its subscriptions and
keeps those of other connections; inbound traffic in `Suspected` returns the
connection to `Alive`; from `Dead` no sequence of observations changes
anything. -/
theorem heartbeat_dead_after_two_missed_intervals (e : Engine) :
    (e.liveness = Liveness.Alive →
      (e.step Observation.missedInterval).liveness = Liveness.Suspected ∧
      (e.step Observation.missedInterval).registry = e.registry ∧
      (∀ n, (e.run (List.replicate n Observation.missedInterval)).liveness = Liveness.Dead
        ↔ 2 ≤ n) ∧
      (∀ s, s ∈ (e.run [Observation.missedInterval, Observation.missedInterval]).registry.subscriptions
        ↔ s ∈ e.registry.subscriptions ∧ s.conn ≠ e.conn)) ∧
    (e.liveness = Liveness.Suspected →
      (e.step Observation.missedInterval).liveness = Liveness.Dead ∧
      (∀ s, s ∈ (e.step Observation.missedInterval).registry.subscriptions
        ↔ s ∈ e.registry.subscriptions ∧ s.conn ≠ e.conn) ∧
      e.step Observation.traffic = { e with liveness := Liveness.Alive }) ∧
    (e.liveness = Liveness.Dead → ∀ obs, e.run obs = e) := by
  refine ⟨?_, ?_, fun h obs => Engine.run_of_dead e h obs⟩
  · intro h
    refine ⟨by simp [Engine.step, h], by simp [Engine.step, h], ?_, ?_⟩
    · intro n
      match n with
      | 0 => simp [Engine.run, h]
      | 1 => simp [Engine.run, Engine.step, h]
      | k + 2 =>
        have hd : ((e.step Observation.missedInterval).step
            Observation.missedInterval).liveness = Liveness.Dead := by
          simp [Engine.step, h]
        have hr : e.run (List.replicate (k + 2) Observation.missedInterval)
            = ((e.step Observation.missedInterval).step Observation.missedInterval).run
                (List.replicate k Observation.missedInterval) := by
          simp [List.replicate_succ, Engine.run_cons]
        rw [hr, Engine.run_of_dead _ hd, hd]
        simp
    · intro s
      simp [Engine.run, Engine.step, h, Registry.dropConnection, List.mem_filter]
  · intro h
    refine ⟨by simp [Engine.step, h], ?_, by simp [Engine.step, h]⟩
    intro s
    simp [Engine.step, h, Registry.dropConnection, List.mem_filter]

/-- C4, at a concrete connection: connection 7, `Alive` with two subscriptions
next to one of connection 8, is `Dead` after two missed intervals and only the
subscription of connection 8 is left; a `Suspected` one that sees traffic is
`Alive` again. -/
theorem heartbeat_dead_after_two_missed_intervals_witness :
    ((⟨7, Liveness.Alive, true,
        ⟨[], [⟨"sensors", some "temp", 7⟩, ⟨"sensors", none, 8⟩, ⟨"cams", none, 7⟩]⟩⟩ : Engine).run
        (List.replicate 2 Observation.missedInterval)).liveness = Liveness.Dead ∧
    (⟨7, Liveness.Suspected, true, ⟨[], []⟩⟩ : Engine).step Observation.traffic
      = ⟨7, Liveness.Alive, true, ⟨[], []⟩⟩ :=
  ⟨(((heartbeat_dead_after_two_missed_intervals
      ⟨7, Liveness.Alive, true,
        ⟨[], [⟨"sensors", some "temp", 7⟩, ⟨"sensors", none, 8⟩, ⟨"cams", none, 7⟩]⟩⟩).1 rfl).2.2.1
      2).2 (le_refl 2),
   ((heartbeat_dead_after_two_missed_intervals ⟨7, Liveness.Suspected, true, ⟨[], []⟩⟩).2.1
      rfl).2.2⟩

/-- C5: `runEaa` calls `RunServer` exactly when `InitEaaContext` succeeded and
the backend type is `"kafka"` with a successful broker construction or
`"gochannels"`.  It then calls it once, after exactly one assignment to
`MsgBrokerCtx`, of the value the Kafka constructor returned or of the
go-channel broker; the context handed to `RunServer` is the one the
constructor left, with that broker installed, and what `RunServer` returns on
this context is recorded and stored in `eaaErr`.  In every other case
`RunServer` is not called, `false` is sent on the run-success channel and
`eaaErr` keeps its value. -/
theorem runEaa_installs_one_broker_before_RunServer {C K G : Type} (api : Api C K G)
    (backendType tempdir : String) (eaaCtx0 : Context C K G) (eaaErr0 : Option GoError) :
    let r := runEaa api backendType tempdir eaaCtx0 eaaErr0
    let tr := r.1
    let i := api.InitEaaContext (tempdir ++ "/configs/eaa.json") eaaCtx0
    let k := api.NewKafkaMsgBroker i.2 "eaa_test_consumer"
    let g := api.NewGoChannelMsgBroker i.2
    let started := i.1 = none ∧
      ((backendType = "kafka" ∧ k.1.2 = none) ∨ backendType = "gochannels")
    let broker : Option (MsgBroker K G) :=
      if backendType = "kafka" then k.1.1.map MsgBroker.kafka
      else some (MsgBroker.goChannel g.1)
    let ctx : Context C K G :=
      if backendType = "kafka" then { k.2 with MsgBrokerCtx := broker }
      else { g.2 with MsgBrokerCtx := broker }
    (started →
      (tr.filter RunEvent.isRunServer).length = 1 ∧
      installs (beforeRunServer tr) = [broker] ∧
      ctx.MsgBrokerCtx = broker ∧
      RunEvent.RunServer broker (api.RunServer ctx).1 ∈ tr ∧
      (∀ b e, RunEvent.RunServer b e ∈ tr → b = broker ∧ e = (api.RunServer ctx).1) ∧
      r.2 = (api.RunServer ctx).1 ∧
      RunEvent.sendRunSuccess false ∉ tr) ∧
    (¬ started →
      (∀ b e, RunEvent.RunServer b e ∉ tr) ∧ RunEvent.sendRunSuccess false ∈ tr ∧
      r.2 = eaaErr0) := by
  intro r tr i k g started broker ctx
  have hkg : ¬ ("gochannels" : String) = "kafka" := by decide
  cases hi : i.1 with
  | some err =>
    have hr : r = (RunEvent.InitEaaContext (tempdir ++ "/configs/eaa.json") (some err)
        :: failEvents K G, eaaErr0) := by
      simp only [r, runEaa]
      simp only [i] at hi
      simp [hi]
    constructor
    · intro hs
      simp [started, hi] at hs
    · intro _
      simp [tr, hr, failEvents]
  | none =>
    by_cases hk : backendType = "kafka"
    · cases hke : k.1.2 with
      | some err =>
        have hr : r = (RunEvent.InitEaaContext (tempdir ++ "/configs/eaa.json") none
            :: RunEvent.NewKafkaMsgBroker "eaa_test_consumer" (some err)
            :: RunEvent.setMsgBrokerCtx (k.1.1.map MsgBroker.kafka)
            :: failEvents K G, eaaErr0) := by
          simp only [r, runEaa]
          simp only [i] at hi
          simp only [k, i] at hke
          simp [hi, hk, KafkaBackend, hke]
        constructor
        · intro hs
          simp [started, hi, hk, hke, hkg] at hs
        · intro _
          simp [tr, hr, failEvents]
      | none =>
        have hctx : ctx = { k.2 with MsgBrokerCtx := k.1.1.map MsgBroker.kafka } := by
          simp [ctx, broker, hk]
        have hr : r = ([RunEvent.InitEaaContext (tempdir ++ "/configs/eaa.json") none,
            RunEvent.NewKafkaMsgBroker "eaa_test_consumer" none,
            RunEvent.setMsgBrokerCtx (k.1.1.map MsgBroker.kafka),
            RunEvent.RunServer (k.1.1.map MsgBroker.kafka) (api.RunServer ctx).1,
            RunEvent.sendStopIndication true], (api.RunServer ctx).1) := by
          rw [hctx]
          simp only [r, runEaa]
          simp only [i] at hi
          simp only [k, i] at hke
          simp [hi, hk, KafkaBackend, hke, k, i]
        have hb : broker = k.1.1.map MsgBroker.kafka := by simp [broker, hk]
        constructor
        · intro _
          refine ⟨?_, ?_, ?_, ?_, ?_, ?_, ?_⟩
          · simp [tr, hr, RunEvent.isRunServer]
          · simp [tr, hr, hb, installs, beforeRunServer, RunEvent.isRunServer]
          · rw [hctx, hb]
          · simp [tr, hr, hb]
          · intro b e hmem
            simp only [tr, hr, List.mem_cons, reduceCtorEq, false_or, List.mem_singleton,
              or_false, List.not_mem_nil] at hmem
            cases hmem
            exact ⟨hb.symm, rfl⟩
          · simp [hr]
          · simp [tr, hr]
        · intro hs
          exact absurd ⟨hi, Or.inl ⟨hk, hke⟩⟩ hs
    · by_cases hg : backendType = "gochannels"
      · have hctx : ctx = { g.2 with MsgBrokerCtx := some (MsgBroker.goChannel g.1) } := by
          simp [ctx, broker, hk]
        have hr : r = ([RunEvent.InitEaaContext (tempdir ++ "/configs/eaa.json") none,
            RunEvent.NewGoChannelMsgBroker,
            RunEvent.setMsgBrokerCtx (some (MsgBroker.goChannel g.1)),
            RunEvent.RunServer (some (MsgBroker.goChannel g.1)) (api.RunServer ctx).1,
            RunEvent.sendStopIndication true], (api.RunServer ctx).1) := by
          rw [hctx]
          simp only [r, runEaa]
          simp only [i] at hi
          simp [hi, hg, KafkaBackend, GochannelsBackend, hkg, g, i]
        have hb : broker = some (MsgBroker.goChannel g.1) := by simp [broker, hk]
        constructor
        · intro _
          refine ⟨?_, ?_, ?_, ?_, ?_, ?_, ?_⟩
          · simp [tr, hr, RunEvent.isRunServer]
          · simp [tr, hr, hb, installs, beforeRunServer, RunEvent.isRunServer]
          · rw [hctx, hb]
          · simp [tr, hr, hb]
          · intro b e hmem
            simp only [tr, hr, List.mem_cons, reduceCtorEq, false_or, List.mem_singleton,
              or_false, List.not_mem_nil] at hmem
            cases hmem
            exact ⟨hb.symm, rfl⟩
          · simp [hr]
          · simp [tr, hr]
        · intro hs
          exact absurd ⟨hi, Or.inr hg⟩ hs
      · have hr : r = (RunEvent.InitEaaContext (tempdir ++ "/configs/eaa.json") none
            :: failEvents K G, eaaErr0) := by
          simp only [r, runEaa]
          simp only [i] at hi
          simp [hi, hk, hg, KafkaBackend, GochannelsBackend]
        constructor
        · intro hs
          simp [started, hk, hg] at hs
        · intro _
          simp [tr, hr, failEvents]

/-- C5, at concrete configurations: with type `"kafka"` the Kafka broker is the
one value installed before `RunServer`; with the unknown type `"mqtt"`, and
with a failing `InitEaaContext`, `RunServer` is not called and `false` is sent
on the run-success channel. -/
theorem runEaa_installs_one_broker_before_RunServer_witness :
    installs (beforeRunServer (runEaa sampleApi "kafka" "/tmp/eaa" ⟨none, ""⟩ none).1)
      = [some (MsgBroker.kafka 1)] ∧
    RunEvent.sendRunSuccess false ∈ (runEaa sampleApi "mqtt" "/tmp/eaa" ⟨none, ""⟩ none).1 ∧
    (∀ b e, RunEvent.RunServer b e ∉ (runEaa sampleApi "gochannels" "bad" ⟨none, ""⟩ none).1) :=
  ⟨((runEaa_installs_one_broker_before_RunServer sampleApi "kafka" "/tmp/eaa" ⟨none, ""⟩ none).1
      (by decide)).2.1,
   ((runEaa_installs_one_broker_before_RunServer sampleApi "mqtt" "/tmp/eaa" ⟨none, ""⟩ none).2
      (by decide)).2.1,
   ((runEaa_installs_one_broker_before_RunServer sampleApi "gochannels" "bad" ⟨none, ""⟩ none).2
      (by decide)).1⟩

end EAA

namespace InterfaceService

/-- The loop either handles every port without error, or stops at the first port
whose body returns an error: the ports before it were handled without error,
the outcome is that of the failing body after them, and the ports after it
play no part. -/
theorem forEachPort_cases {F W : Type} (body : Port F → W → Outcome F W)
    (ok : Port F → List (Step F))
    (hok : ∀ p w, (body p w).err = none → (body p w).steps = ok p)
    (ports : List (Port F)) (w : W) :
    ((forEachPort body ports w).err = none ∧
      (forEachPort body ports w).steps = ports.flatMap ok) ∨
    (∃ e pre p post,
      ports = pre ++ p :: post ∧
      (forEachPort body pre w).err = none ∧
      (forEachPort body pre w).steps = pre.flatMap ok ∧
      (body p (forEachPort body pre w).world).err = some e ∧
      (forEachPort body ports w).err = some e ∧
      (forEachPort body ports w).steps
        = pre.flatMap ok ++ (body p (forEachPort body pre w).world).steps ∧
      (forEachPort body ports w).cmds
        = (forEachPort body pre w).cmds ++ (body p (forEachPort body pre w).world).cmds ∧
      (forEachPort body ports w).world = (body p (forEachPort body pre w).world).world ∧
      forEachPort body ports w = forEachPort body (pre ++ [p]) w) := by
  induction ports generalizing w with
  | nil => left; simp [forEachPort]
  | cons p0 rest ih =>
    cases h : (body p0 w).err with
    | some e =>
      right
      refine ⟨e, [], p0, rest, ?_⟩
      simp [forEachPort, h]
    | none =>
      rcases ih (body p0 w).world with ⟨h1, h2⟩ | ⟨e, pre, p, post, hp, h1, h2, h3, h4, h5, h6, h7, h8⟩
      · left
        simp [forEachPort, h, h1, h2, hok p0 w h, List.flatMap_cons]
      · right
        refine ⟨e, p0 :: pre, p, post, ?_⟩
        subst hp
        refine ⟨by simp, ?_, ?_, ?_, ?_, ?_, ?_, ?_, ?_⟩
        · simp [forEachPort, h, h1]
        · simp [forEachPort, h, h2, hok p0 w h, List.flatMap_cons]
        · simpa [forEachPort, h] using h3
        · simp [forEachPort, h, h4]
        · simp [forEachPort, h, h5, hok p0 w h, List.flatMap_cons]
        · simp [forEachPort, h, h6]
        · simp [forEachPort, h, h7]
        · simp [forEachPort, h, h8]

/-- The body of `Attach` for one port either passes both steps, or returns the
error of validation without attaching, or returns the error of attaching. -/
theorem attachPort_cases {F W : Type} (H : Helpers F W) (p : Port F) (w : W) :
    ((attachPort H p w).err = none ∧ (attachPort H p w).steps = attached p) ∨
    (∃ e, (attachPort H p w).err = some e ∧
      ((attachPort H p w).steps = [Step.validatePort p (some e)] ∨
       (attachPort H p w).steps = [Step.validatePort p none, Step.attachPortToOvs p (some e)])) := by
  cases hv : (H.validatePort p w).1 with
  | some e => right; exact ⟨e, by simp [attachPort, hv]⟩
  | none =>
    cases ha : (H.attachPortToOvs p (H.validatePort p w).2).1 with
    | some e => right; exact ⟨e, by simp [attachPort, hv, ha]⟩
    | none => left; simp [attachPort, hv, ha, attached]

/-- The body of `Detach` for one port either passes all three steps, or returns
the error of the first step that failed, the later steps not being taken. -/
theorem detachPort_cases {F W : Type} (H : Helpers F W) (p : Port F) (w : W) :
    ((detachPort H p w).err = none ∧ (detachPort H p w).steps = detached p) ∨
    (∃ e, (detachPort H p w).err = some e ∧
      ((detachPort H p w).steps = [Step.validatePort p (some e)] ∨
       (detachPort H p w).steps
         = [Step.validatePort p none, Step.detachPortFromOvs p (some e)] ∨
       (detachPort H p w).steps
         = [Step.validatePort p none, Step.detachPortFromOvs p none,
            Step.bindDriver p (some e)])) := by
  cases hv : (H.validatePort p w).1 with
  | some e => right; exact ⟨e, by simp [detachPort, hv]⟩
  | none =>
    cases hd : (detachPortFromOvs H p (H.validatePort p w).2).1.1 with
    | some e => right; exact ⟨e, by simp [detachPort, hv, hd]⟩
    | none =>
      cases hb : (H.bindDriver p (detachPortFromOvs H p (H.validatePort p w).2).2).1 with
      | some e => right; exact ⟨e, by simp [detachPort, hv, hd, hb]⟩
      | none => left; simp [detachPort, hv, hd, hb, detached]

/-- The steps of `Attach`: it handles the ports in list order, validating each before
attaching it.  It returns a nil error exactly when its steps are the
validation and the attachment of every port, each without error; when it
returns an error `e`, its steps are those of the ports before some port `p`,
all without error, followed either by the validation of `p` failing with `e`
(and `p` is not attached) or by the validation of `p` and its attachment
failing with `e`; nothing follows the failing step. -/
theorem Attach_steps_shape {F W : Type} (H : Helpers F W) (ports : Ports F) (w : W) :
    ((Attach H ports w).err = none ↔
      (Attach H ports w).steps
        = Step.updateDPDKDevbindOutput :: ports.Ports.flatMap attached) ∧
    (∀ e, (Attach H ports w).err = some e →
      ∃ pre p post, ports.Ports = pre ++ p :: post ∧
        ((Attach H ports w).steps = Step.updateDPDKDevbindOutput ::
            (pre.flatMap attached ++ [Step.validatePort p (some e)]) ∨
         (Attach H ports w).steps = Step.updateDPDKDevbindOutput ::
            (pre.flatMap attached ++
              [Step.validatePort p none, Step.attachPortToOvs p (some e)]))) := by
  have hok : ∀ (p : Port F) (w : W), (attachPort H p w).err = none →
      (attachPort H p w).steps = attached p := by
    intro p w h
    rcases attachPort_cases H p w with ⟨_, h2⟩ | ⟨e, h1, _⟩
    · exact h2
    · rw [h] at h1; cases h1
  rcases forEachPort_cases (attachPort H) attached hok ports.Ports
      (H.updateDPDKDevbindOutput w) with
    ⟨h1, h2⟩ | ⟨e, pre, p, post, hp, _, _, h3, h4, h5, _, _, _⟩
  · constructor
    · simp [Attach, h1, h2]
    · intro e he
      simp [Attach, h1] at he
  · have shape : (Attach H ports w).steps = Step.updateDPDKDevbindOutput ::
            (pre.flatMap attached ++ [Step.validatePort p (some e)]) ∨
         (Attach H ports w).steps = Step.updateDPDKDevbindOutput ::
            (pre.flatMap attached ++
              [Step.validatePort p none, Step.attachPortToOvs p (some e)]) := by
      rcases attachPort_cases H p
          (forEachPort (attachPort H) pre (H.updateDPDKDevbindOutput w)).world with
        ⟨b1, _⟩ | ⟨e2, b1, b2⟩
      · rw [h3] at b1; cases b1
      · rw [h3] at b1
        cases b1
        rcases b2 with b2 | b2
        · left; simp [Attach, h5, b2]
        · right; simp [Attach, h5, b2]
    constructor
    · constructor
      · intro he
        simp [Attach, h4] at he
      · intro hs
        exfalso
        rcases shape with b | b
        · rw [b, hp] at hs
          simp [List.flatMap_append, List.flatMap_cons, attached] at hs
        · rw [b, hp] at hs
          simp [List.flatMap_append, List.flatMap_cons, attached] at hs
    · intro e2 he
      have : e2 = e := by
        simp [Attach, h4] at he
        exact he.symm
      subst this
      exact ⟨pre, p, post, hp, shape⟩

/-- The steps of `Detach`: it runs, for each port in list order, `validatePort`, then
`detachPortFromOvs`, then `bindDriver`, each only after the previous one
succeeded.  It returns a nil error exactly when its steps are these three for
every port, each without error; when it returns an error `e`, its steps are
those of the ports before some port `p`, all without error, followed by the
steps of `p` up to the first one that fails, which fails with `e`; nothing
follows the failing step. -/
theorem Detach_steps_shape {F W : Type} (H : Helpers F W) (ports : Ports F) (w : W) :
    ((Detach H ports w).err = none ↔
      (Detach H ports w).steps
        = Step.updateDPDKDevbindOutput :: ports.Ports.flatMap detached) ∧
    (∀ e, (Detach H ports w).err = some e →
      ∃ pre p post, ports.Ports = pre ++ p :: post ∧
        ((Detach H ports w).steps = Step.updateDPDKDevbindOutput ::
            (pre.flatMap detached ++ [Step.validatePort p (some e)]) ∨
         (Detach H ports w).steps = Step.updateDPDKDevbindOutput ::
            (pre.flatMap detached ++
              [Step.validatePort p none, Step.detachPortFromOvs p (some e)]) ∨
         (Detach H ports w).steps = Step.updateDPDKDevbindOutput ::
            (pre.flatMap detached ++
              [Step.validatePort p none, Step.detachPortFromOvs p none,
               Step.bindDriver p (some e)]))) := by
  have hok : ∀ (p : Port F) (w : W), (detachPort H p w).err = none →
      (detachPort H p w).steps = detached p := by
    intro p w h
    rcases detachPort_cases H p w with ⟨_, h2⟩ | ⟨e, h1, _⟩
    · exact h2
    · rw [h] at h1; cases h1
  rcases forEachPort_cases (detachPort H) detached hok ports.Ports
      (H.updateDPDKDevbindOutput w) with
    ⟨h1, h2⟩ | ⟨e, pre, p, post, hp, _, _, h3, h4, h5, _, _, _⟩
  · constructor
    · simp [Detach, h1, h2]
    · intro e he
      simp [Detach, h1] at he
  · have shape : (Detach H ports w).steps = Step.updateDPDKDevbindOutput ::
            (pre.flatMap detached ++ [Step.validatePort p (some e)]) ∨
         (Detach H ports w).steps = Step.updateDPDKDevbindOutput ::
            (pre.flatMap detached ++
              [Step.validatePort p none, Step.detachPortFromOvs p (some e)]) ∨
         (Detach H ports w).steps = Step.updateDPDKDevbindOutput ::
            (pre.flatMap detached ++
              [Step.validatePort p none, Step.detachPortFromOvs p none,
               Step.bindDriver p (some e)]) := by
      rcases detachPort_cases H p
          (forEachPort (detachPort H) pre (H.updateDPDKDevbindOutput w)).world with
        ⟨b1, _⟩ | ⟨e2, b1, b2⟩
      · rw [h3] at b1; cases b1
      · rw [h3] at b1
        cases b1
        rcases b2 with b2 | b2 | b2
        · left; simp [Detach, h5, b2]
        · right; left; simp [Detach, h5, b2]
        · right; right; simp [Detach, h5, b2]
    constructor
    · constructor
      · intro he
        simp [Detach, h4] at he
      · intro hs
        exfalso
        rcases shape with b | b | b
        · rw [b, hp] at hs
          simp [List.flatMap_append, List.flatMap_cons, detached] at hs
        · rw [b, hp] at hs
          simp [List.flatMap_append, List.flatMap_cons, detached] at hs
        · rw [b, hp] at hs
          simp [List.flatMap_append, List.flatMap_cons, detached] at hs
    · intro e2 he
      have : e2 = e := by
        simp [Detach, h4] at he
        exact he.symm
      subst this
      exact ⟨pre, p, post, hp, shape⟩

/-- A loop that ends without error has run the body on every port without
error, each from the state its predecessors left, and ends in the state the
last one left. -/
theorem forEachPort_ok {F W : Type} (body : Port F → W → Outcome F W) (nxt : Port F → W → W)
    (hn : ∀ p w, (body p w).err = none → (body p w).world = nxt p w)
    (ports : List (Port F)) (w : W) (h : (forEachPort body ports w).err = none) :
    (forEachPort body ports w).world = ports.foldl (fun w p => nxt p w) w ∧
    ∀ pre p post, ports = pre ++ p :: post →
      (body p (pre.foldl (fun w p => nxt p w) w)).err = none := by
  induction ports generalizing w with
  | nil =>
    refine ⟨by simp [forEachPort], ?_⟩
    intro pre p post hp
    simp at hp
  | cons p0 rest ih =>
    cases h0 : (body p0 w).err with
    | some e =>
      simp [forEachPort, h0] at h
    | none =>
      have hrest : (forEachPort body rest (body p0 w).world).err = none := by
        simpa [forEachPort, h0] using h
      have hw := hn p0 w h0
      obtain ⟨i1, i2⟩ := ih (body p0 w).world hrest
      rw [hw] at i1 i2
      constructor
      · simp [forEachPort, h0, hw, i1]
      · intro pre p post hp
        cases pre with
        | nil =>
          simp only [List.nil_append, List.cons.injEq] at hp
          obtain ⟨hp0, _⟩ := hp
          subst hp0
          simpa using h0
        | cons q pre2 =>
          simp only [List.cons_append, List.cons.injEq] at hp
          obtain ⟨hq, hrest2⟩ := hp
          subst hq
          have := i2 pre2 p post hrest2
          simpa [List.foldl_cons] using this

/-- A loop whose body returns no error on any port, each taken from the state its
predecessors left, ends without error. -/
theorem forEachPort_of_passes {F W : Type} (body : Port F → W → Outcome F W)
    (nxt : Port F → W → W)
    (hn : ∀ p w, (body p w).err = none → (body p w).world = nxt p w)
    (ports : List (Port F)) (w : W)
    (h : ∀ pre p post, ports = pre ++ p :: post →
      (body p (pre.foldl (fun w p => nxt p w) w)).err = none) :
    (forEachPort body ports w).err = none := by
  induction ports generalizing w with
  | nil => simp [forEachPort]
  | cons p0 rest ih =>
    have h0 : (body p0 w).err = none := by
      simpa using h [] p0 rest rfl
    have hw := hn p0 w h0
    have hrest : (forEachPort body rest (nxt p0 w)).err = none := by
      apply ih
      intro pre p post hp
      have := h (p0 :: pre) p post (by simp [hp])
      simpa [List.foldl_cons] using this
    simpa [forEachPort, h0, hw] using hrest

/-- The body of `Attach` for one port in terms of what the two helpers return:
both return no error and the state is the one `attachPortToOvs` left; or
`validatePort` returns the error, the state is the one it left and
`attachPortToOvs` is not called; or `attachPortToOvs` returns the error and
the state is the one it left. -/
theorem attachPort_spec {F W : Type} (H : Helpers F W) (p : Port F) (w : W) :
    ((H.validatePort p w).1 = none ∧ (H.attachPortToOvs p (H.validatePort p w).2).1 = none ∧
      (attachPort H p w).err = none ∧
      (attachPort H p w).world = (H.attachPortToOvs p (H.validatePort p w).2).2) ∨
    (∃ e, (attachPort H p w).err = some e ∧
      (((H.validatePort p w).1 = some e ∧
        (attachPort H p w).world = (H.validatePort p w).2 ∧
        (attachPort H p w).steps = [Step.validatePort p (some e)]) ∨
       ((H.validatePort p w).1 = none ∧
        (H.attachPortToOvs p (H.validatePort p w).2).1 = some e ∧
        (attachPort H p w).world = (H.attachPortToOvs p (H.validatePort p w).2).2 ∧
        (attachPort H p w).steps
          = [Step.validatePort p none, Step.attachPortToOvs p (some e)]))) := by
  cases hv : (H.validatePort p w).1 with
  | some e => right; exact ⟨e, by simp [attachPort, hv]⟩
  | none =>
    cases ha : (H.attachPortToOvs p (H.validatePort p w).2).1 with
    | some e => right; exact ⟨e, by simp [attachPort, hv, ha]⟩
    | none => left; simp [attachPort, hv, ha]

/-- The body of `Detach` for one port in terms of what `validatePort`,
`detachPortFromOvs` and `bindDriver` return: all three return no error and
the state is the one `bindDriver` left; or the first of them that returns an
error ends the body with that error, in the state it left, the later ones not
being called. -/
theorem detachPort_spec {F W : Type} (H : Helpers F W) (p : Port F) (w : W) :
    ((H.validatePort p w).1 = none ∧
      (detachPortFromOvs H p (H.validatePort p w).2).1.1 = none ∧
      (H.bindDriver p (detachPortFromOvs H p (H.validatePort p w).2).2).1 = none ∧
      (detachPort H p w).err = none ∧
      (detachPort H p w).world
        = (H.bindDriver p (detachPortFromOvs H p (H.validatePort p w).2).2).2) ∨
    (∃ e, (detachPort H p w).err = some e ∧
      (((H.validatePort p w).1 = some e ∧
        (detachPort H p w).world = (H.validatePort p w).2 ∧
        (detachPort H p w).cmds = [] ∧
        (detachPort H p w).steps = [Step.validatePort p (some e)]) ∨
       ((H.validatePort p w).1 = none ∧
        (detachPortFromOvs H p (H.validatePort p w).2).1.1 = some e ∧
        (detachPort H p w).world = (detachPortFromOvs H p (H.validatePort p w).2).2 ∧
        (detachPort H p w).cmds = (detachPortFromOvs H p (H.validatePort p w).2).1.2 ∧
        (detachPort H p w).steps
          = [Step.validatePort p none, Step.detachPortFromOvs p (some e)]) ∨
       ((H.validatePort p w).1 = none ∧
        (detachPortFromOvs H p (H.validatePort p w).2).1.1 = none ∧
        (H.bindDriver p (detachPortFromOvs H p (H.validatePort p w).2).2).1 = some e ∧
        (detachPort H p w).world
          = (H.bindDriver p (detachPortFromOvs H p (H.validatePort p w).2).2).2 ∧
        (detachPort H p w).cmds = (detachPortFromOvs H p (H.validatePort p w).2).1.2 ∧
        (detachPort H p w).steps
          = [Step.validatePort p none, Step.detachPortFromOvs p none,
             Step.bindDriver p (some e)]))) := by
  cases hv : (H.validatePort p w).1 with
  | some e => right; exact ⟨e, by simp [detachPort, hv]⟩
  | none =>
    cases hd : (detachPortFromOvs H p (H.validatePort p w).2).1.1 with
    | some e => right; exact ⟨e, by simp [detachPort, hv, hd]⟩
    | none =>
      cases hb : (H.bindDriver p (detachPortFromOvs H p (H.validatePort p w).2).2).1 with
      | some e => right; exact ⟨e, by simp [detachPort, hv, hd, hb]⟩
      | none => left; simp [detachPort, hv, hd, hb]

/-- C6: `Attach` handles the ports in list order, validating each before
attaching it, each helper working on the host state its predecessors left.
It returns a nil error exactly when `validatePort` and `attachPortToOvs`
return no error for every port; the host state is then the one left by
validating and attaching all ports, and the steps are these two for every
port.  When it returns an error `e`, the request splits at a port `p`: every
port before `p` passed both helpers, and either `validatePort` returned `e`
for `p`, the host state is the one that validation left and `p` is not
attached, or `validatePort` passed and `attachPortToOvs` returned `e` for `p`,
the host state being the one it left; no step follows the failing one. -/
theorem Attach_returns_first_error {F W : Type} (H : Helpers F W) (ports : Ports F) (w : W) :
    let w0 := H.updateDPDKDevbindOutput w
    ((Attach H ports w).err = none ↔
      ∀ pre p post, ports.Ports = pre ++ p :: post →
        (H.validatePort p (attachedState H pre w0)).1 = none ∧
        (H.attachPortToOvs p (H.validatePort p (attachedState H pre w0)).2).1 = none) ∧
    ((Attach H ports w).err = none →
      (Attach H ports w).world = attachedState H ports.Ports w0 ∧
      (Attach H ports w).steps
        = Step.updateDPDKDevbindOutput :: ports.Ports.flatMap attached) ∧
    (∀ e, (Attach H ports w).err = some e →
      ∃ pre p post, ports.Ports = pre ++ p :: post ∧
        (∀ pre2 q post2, pre = pre2 ++ q :: post2 →
          (H.validatePort q (attachedState H pre2 w0)).1 = none ∧
          (H.attachPortToOvs q (H.validatePort q (attachedState H pre2 w0)).2).1 = none) ∧
        (((H.validatePort p (attachedState H pre w0)).1 = some e ∧
          (Attach H ports w).world = (H.validatePort p (attachedState H pre w0)).2 ∧
          (Attach H ports w).steps = Step.updateDPDKDevbindOutput ::
            (pre.flatMap attached ++ [Step.validatePort p (some e)])) ∨
         ((H.validatePort p (attachedState H pre w0)).1 = none ∧
          (H.attachPortToOvs p (H.validatePort p (attachedState H pre w0)).2).1 = some e ∧
          (Attach H ports w).world
            = (H.attachPortToOvs p (H.validatePort p (attachedState H pre w0)).2).2 ∧
          (Attach H ports w).steps = Step.updateDPDKDevbindOutput ::
            (pre.flatMap attached ++
              [Step.validatePort p none, Step.attachPortToOvs p (some e)])))) := by
  intro w0
  have hn : ∀ (p : Port F) (s : W), (attachPort H p s).err = none →
      (attachPort H p s).world
        = (fun (q : Port F) (u : W) => (H.attachPortToOvs q (H.validatePort q u).2).2) p s := by
    intro p s h
    rcases attachPort_spec H p s with ⟨_, _, _, hw⟩ | ⟨e, he, _⟩
    · exact hw
    · rw [h] at he; cases he
  have hpass : ∀ (p : Port F) (s : W), (attachPort H p s).err = none ↔
      ((H.validatePort p s).1 = none ∧ (H.attachPortToOvs p (H.validatePort p s).2).1 = none) := by
    intro p s
    constructor
    · intro h
      rcases attachPort_spec H p s with ⟨a, b, _, _⟩ | ⟨e, he, _⟩
      · exact ⟨a, b⟩
      · rw [h] at he; cases he
    · rintro ⟨a, b⟩
      simp [attachPort, a, b]
  have hok : ∀ (p : Port F) (s : W), (attachPort H p s).err = none →
      (attachPort H p s).steps = attached p := by
    intro p s h
    rcases attachPort_cases H p s with ⟨_, h2⟩ | ⟨e, h1, _⟩
    · exact h2
    · rw [h] at h1; cases h1
  refine ⟨⟨?_, ?_⟩, ?_, ?_⟩
  · intro h pre p post hp
    have h2 : (forEachPort (attachPort H) ports.Ports w0).err = none := by
      simpa [Attach] using h
    exact (hpass p _).1 ((forEachPort_ok (attachPort H) _ hn ports.Ports w0 h2).2 pre p post hp)
  · intro h
    have h2 := forEachPort_of_passes (attachPort H) _ hn ports.Ports w0
      (fun pre p post hp => (hpass p _).2 (h pre p post hp))
    simpa [Attach] using h2
  · intro h
    have h2 : (forEachPort (attachPort H) ports.Ports w0).err = none := by
      simpa [Attach] using h
    refine ⟨?_, (Attach_steps_shape H ports w).1.1 h⟩
    have h3 : (forEachPort (attachPort H) ports.Ports w0).world
        = attachedState H ports.Ports w0 :=
      (forEachPort_ok (attachPort H) _ hn ports.Ports w0 h2).1
    simpa [Attach] using h3
  · intro e he
    have he2 : (forEachPort (attachPort H) ports.Ports w0).err = some e := by
      simpa [Attach] using he
    rcases forEachPort_cases (attachPort H) attached hok ports.Ports w0 with
      ⟨h1, _⟩ | ⟨e2, pre, p, post, hp, h1, _, h3, h4, h5, _, h7, _⟩
    · rw [h1] at he2; cases he2
    · have hee : e2 = e := by
        rw [h4] at he2
        exact Option.some.inj he2
      subst hee
      have hw : (forEachPort (attachPort H) pre w0).world = attachedState H pre w0 :=
        (forEachPort_ok (attachPort H) _ hn pre w0 h1).1
      have hall := (forEachPort_ok (attachPort H) _ hn pre w0 h1).2
      rw [hw] at h3 h5 h7
      refine ⟨pre, p, post, hp, fun pre2 q post2 hq => (hpass q _).1 (hall pre2 q post2 hq), ?_⟩
      rcases attachPort_spec H p (attachedState H pre w0) with
        ⟨_, _, hnone, _⟩ | ⟨e3, he3, shape⟩
      · rw [h3] at hnone; cases hnone
      · have hee : e3 = e2 := by
          rw [h3] at he3
          exact (Option.some.inj he3).symm
        subst hee
        rcases shape with ⟨a, b, c⟩ | ⟨a, b, c, d⟩
        · left
          refine ⟨a, ?_, ?_⟩
          · simpa [Attach, h7] using b
          · simp [Attach, h5, c]
        · right
          refine ⟨a, b, ?_, ?_⟩
          · simpa [Attach, h7] using c
          · simp [Attach, h5, d]

/-- C6, at concrete requests on the stand-in host: when both ports pass, the
bridge holds both; when the second of three ports has an empty PCI address,
validation returns the error for it after the first port was attached, and
the request splits there. -/
theorem Attach_returns_first_error_witness :
    (Attach sampleHelpers ⟨[⟨"0000:01:00.0", 1⟩, ⟨"0000:02:00.0", 1⟩]⟩ ⟨[], []⟩).world
      = ⟨["eth-0000:01:00.0", "eth-0000:02:00.0"], []⟩ ∧
    ∃ pre p post,
      ([⟨"0000:01:00.0", 1⟩, ⟨"", 0⟩, ⟨"0000:02:00.0", 1⟩] : List (Port Nat)) = pre ++ p :: post ∧
      ((sampleHelpers.validatePort p (attachedState sampleHelpers pre ⟨[], []⟩)).1
          = some (GoError.msg "PCI address is empty") ∨
       (sampleHelpers.attachPortToOvs p
          (sampleHelpers.validatePort p (attachedState sampleHelpers pre ⟨[], []⟩)).2).1
          = some (GoError.msg "PCI address is empty")) :=
  ⟨((Attach_returns_first_error sampleHelpers
      ⟨[⟨"0000:01:00.0", 1⟩, ⟨"0000:02:00.0", 1⟩]⟩ ⟨[], []⟩).2.1 (by decide)).1,
   match (Attach_returns_first_error sampleHelpers
      ⟨[⟨"0000:01:00.0", 1⟩, ⟨"", 0⟩, ⟨"0000:02:00.0", 1⟩]⟩ ⟨[], []⟩).2.2
      (GoError.msg "PCI address is empty") (by decide) with
   | ⟨pre, p, post, hp, _, hshape⟩ =>
     ⟨pre, p, post, hp, hshape.elim (fun h => Or.inl h.1) (fun h => Or.inr h.2.1)⟩⟩

/-- C7: `Detach` runs, for each port in list order, `validatePort`, then
`detachPortFromOvs`, then `bindDriver`, each on the host state the previous
one left and only if the previous one returned no error.  It returns a nil
error exactly when all three return no error for every port; the host state
is then the one left by handling all ports, and the steps are these three for
every port.  When it returns an error `e`, the request splits at a port `p`:
every port before `p` passed all three, and `e` is what the first failing one
of the three returned for `p`, the host state being the one that call left and
the later ones not being called.  `detachPortFromOvs` itself returns the error
of `getPortName` without running a command, and otherwise runs
`ovs-vsctl del-port` on the trimmed name and returns its error wrapped with
its output. -/
theorem Detach_returns_first_error {F W : Type} (H : Helpers F W) (ports : Ports F) (w : W) :
    let w0 := H.updateDPDKDevbindOutput w
    ((Detach H ports w).err = none ↔
      ∀ pre p post, ports.Ports = pre ++ p :: post →
        (H.validatePort p (detachedState H pre w0)).1 = none ∧
        (detachPortFromOvs H p (H.validatePort p (detachedState H pre w0)).2).1.1 = none ∧
        (H.bindDriver p
          (detachPortFromOvs H p (H.validatePort p (detachedState H pre w0)).2).2).1 = none) ∧
    ((Detach H ports w).err = none →
      (Detach H ports w).world = detachedState H ports.Ports w0 ∧
      (Detach H ports w).steps
        = Step.updateDPDKDevbindOutput :: ports.Ports.flatMap detached) ∧
    (∀ e, (Detach H ports w).err = some e →
      ∃ pre p post, ports.Ports = pre ++ p :: post ∧
        (∀ pre2 q post2, pre = pre2 ++ q :: post2 →
          (H.validatePort q (detachedState H pre2 w0)).1 = none ∧
          (detachPortFromOvs H q (H.validatePort q (detachedState H pre2 w0)).2).1.1 = none ∧
          (H.bindDriver q
            (detachPortFromOvs H q (H.validatePort q (detachedState H pre2 w0)).2).2).1
            = none) ∧
        (((H.validatePort p (detachedState H pre w0)).1 = some e ∧
          (Detach H ports w).world = (H.validatePort p (detachedState H pre w0)).2 ∧
          (Detach H ports w).steps = Step.updateDPDKDevbindOutput ::
            (pre.flatMap detached ++ [Step.validatePort p (some e)])) ∨
         ((H.validatePort p (detachedState H pre w0)).1 = none ∧
          (detachPortFromOvs H p (H.validatePort p (detachedState H pre w0)).2).1.1 = some e ∧
          (Detach H ports w).world
            = (detachPortFromOvs H p (H.validatePort p (detachedState H pre w0)).2).2 ∧
          (Detach H ports w).steps = Step.updateDPDKDevbindOutput ::
            (pre.flatMap detached ++
              [Step.validatePort p none, Step.detachPortFromOvs p (some e)])) ∨
         ((H.validatePort p (detachedState H pre w0)).1 = none ∧
          (detachPortFromOvs H p (H.validatePort p (detachedState H pre w0)).2).1.1 = none ∧
          (H.bindDriver p
            (detachPortFromOvs H p (H.validatePort p (detachedState H pre w0)).2).2).1
            = some e ∧
          (Detach H ports w).world
            = (H.bindDriver p
                (detachPortFromOvs H p (H.validatePort p (detachedState H pre w0)).2).2).2 ∧
          (Detach H ports w).steps = Step.updateDPDKDevbindOutput ::
            (pre.flatMap detached ++
              [Step.validatePort p none, Step.detachPortFromOvs p none,
               Step.bindDriver p (some e)])))) ∧
    (∀ (q : Port F) (s : W),
      (∀ e, (H.getPortName q.Pci s).1.2 = some e →
        detachPortFromOvs H q s
          = ((some e, [Cmd.getPortName q.Pci (H.getPortName q.Pci s).1.1 (some e)]),
             (H.getPortName q.Pci s).2)) ∧
      ((H.getPortName q.Pci s).1.2 = none →
        (detachPortFromOvs H q s).2
          = (H.Vsctl ["ovs-vsctl", "del-port", TrimSpace (H.getPortName q.Pci s).1.1]
              (H.getPortName q.Pci s).2).2 ∧
        (detachPortFromOvs H q s).1.1
          = (H.Vsctl ["ovs-vsctl", "del-port", TrimSpace (H.getPortName q.Pci s).1.1]
              (H.getPortName q.Pci s).2).1.2.map
              (fun err => GoError.wrapf err
                (H.Vsctl ["ovs-vsctl", "del-port", TrimSpace (H.getPortName q.Pci s).1.1]
                  (H.getPortName q.Pci s).2).1.1 []) ∧
        (detachPortFromOvs H q s).1.2
          = [Cmd.getPortName q.Pci (H.getPortName q.Pci s).1.1 none,
             Cmd.Vsctl ["ovs-vsctl", "del-port", TrimSpace (H.getPortName q.Pci s).1.1]
               (H.Vsctl ["ovs-vsctl", "del-port", TrimSpace (H.getPortName q.Pci s).1.1]
                 (H.getPortName q.Pci s).2).1.1
               (H.Vsctl ["ovs-vsctl", "del-port", TrimSpace (H.getPortName q.Pci s).1.1]
                 (H.getPortName q.Pci s).2).1.2])) := by
  intro w0
  have hn : ∀ (p : Port F) (s : W), (detachPort H p s).err = none →
      (detachPort H p s).world
        = (fun (q : Port F) (u : W) =>
            (H.bindDriver q (detachPortFromOvs H q (H.validatePort q u).2).2).2) p s := by
    intro p s h
    rcases detachPort_spec H p s with ⟨_, _, _, _, hw⟩ | ⟨e, he, _⟩
    · exact hw
    · rw [h] at he; cases he
  have hpass : ∀ (p : Port F) (s : W), (detachPort H p s).err = none ↔
      ((H.validatePort p s).1 = none ∧
       (detachPortFromOvs H p (H.validatePort p s).2).1.1 = none ∧
       (H.bindDriver p (detachPortFromOvs H p (H.validatePort p s).2).2).1 = none) := by
    intro p s
    constructor
    · intro h
      rcases detachPort_spec H p s with ⟨a, b, c, _, _⟩ | ⟨e, he, _⟩
      · exact ⟨a, b, c⟩
      · rw [h] at he; cases he
    · rintro ⟨a, b, c⟩
      simp [detachPort, a, b, c]
  have hok : ∀ (p : Port F) (s : W), (detachPort H p s).err = none →
      (detachPort H p s).steps = detached p := by
    intro p s h
    rcases detachPort_cases H p s with ⟨_, h2⟩ | ⟨e, h1, _⟩
    · exact h2
    · rw [h] at h1; cases h1
  refine ⟨⟨?_, ?_⟩, ?_, ?_, ?_⟩
  · intro h pre p post hp
    have h2 : (forEachPort (detachPort H) ports.Ports w0).err = none := by
      simpa [Detach] using h
    exact (hpass p _).1 ((forEachPort_ok (detachPort H) _ hn ports.Ports w0 h2).2 pre p post hp)
  · intro h
    have h2 := forEachPort_of_passes (detachPort H) _ hn ports.Ports w0
      (fun pre p post hp => (hpass p _).2 (h pre p post hp))
    simpa [Detach] using h2
  · intro h
    have h2 : (forEachPort (detachPort H) ports.Ports w0).err = none := by
      simpa [Detach] using h
    refine ⟨?_, (Detach_steps_shape H ports w).1.1 h⟩
    have h3 : (forEachPort (detachPort H) ports.Ports w0).world
        = detachedState H ports.Ports w0 :=
      (forEachPort_ok (detachPort H) _ hn ports.Ports w0 h2).1
    simpa [Detach] using h3
  · intro e he
    have he2 : (forEachPort (detachPort H) ports.Ports w0).err = some e := by
      simpa [Detach] using he
    rcases forEachPort_cases (detachPort H) detached hok ports.Ports w0 with
      ⟨h1, _⟩ | ⟨e2, pre, p, post, hp, h1, _, h3, h4, h5, _, h7, _⟩
    · rw [h1] at he2; cases he2
    · have hee : e2 = e := by
        rw [h4] at he2
        exact Option.some.inj he2
      subst hee
      have hw : (forEachPort (detachPort H) pre w0).world = detachedState H pre w0 :=
        (forEachPort_ok (detachPort H) _ hn pre w0 h1).1
      have hall := (forEachPort_ok (detachPort H) _ hn pre w0 h1).2
      rw [hw] at h3 h5 h7
      refine ⟨pre, p, post, hp, fun pre2 q post2 hq => (hpass q _).1 (hall pre2 q post2 hq), ?_⟩
      rcases detachPort_spec H p (detachedState H pre w0) with
        ⟨_, _, _, hnone, _⟩ | ⟨e3, he3, shape⟩
      · rw [h3] at hnone; cases hnone
      · have hee : e3 = e2 := by
          rw [h3] at he3
          exact (Option.some.inj he3).symm
        subst hee
        rcases shape with ⟨a, b, _, c⟩ | ⟨a, b, c, _, d⟩ | ⟨a, b, c, d, _, f⟩
        · left
          refine ⟨a, ?_, ?_⟩
          · simpa [Detach, h7] using b
          · simp [Detach, h5, c]
        · right; left
          refine ⟨a, b, ?_, ?_⟩
          · simpa [Detach, h7] using c
          · simp [Detach, h5, d]
        · right; right
          refine ⟨a, b, c, ?_, ?_⟩
          · simpa [Detach, h7] using d
          · simp [Detach, h5, f]
  · intro q s
    constructor
    · intro e h
      simp [detachPortFromOvs, h]
    · intro h
      cases hv : (H.Vsctl ["ovs-vsctl", "del-port", TrimSpace (H.getPortName q.Pci s).1.1]
          (H.getPortName q.Pci s).2).1.2 <;>
        simp [detachPortFromOvs, h, hv]

/-- C7, at concrete requests on the stand-in host: when the bridge holds `eth-a`
and `eth-b`, detaching `a` and `b` empties the bridge and binds both drivers;
when it holds `eth-a` only, the request `a`, `b`, `c` splits at a port for
which one of the three calls returns the wrapped error of `ovs-vsctl`. -/
theorem Detach_returns_first_error_witness :
    (Detach sampleHelpers ⟨[⟨"a", 0⟩, ⟨"b", 0⟩]⟩ ⟨["eth-a", "eth-b"], []⟩).world
      = ⟨[], ["a", "b"]⟩ ∧
    ∃ pre p post,
      ([⟨"a", 0⟩, ⟨"b", 0⟩, ⟨"c", 0⟩] : List (Port Nat)) = pre ++ p :: post ∧
      ((sampleHelpers.validatePort p (detachedState sampleHelpers pre ⟨["eth-a"], []⟩)).1
          = some (GoError.wrapf (GoError.msg "exit status 1") "no port named eth-b" []) ∨
       (detachPortFromOvs sampleHelpers p
          (sampleHelpers.validatePort p (detachedState sampleHelpers pre ⟨["eth-a"], []⟩)).2).1.1
          = some (GoError.wrapf (GoError.msg "exit status 1") "no port named eth-b" []) ∨
       (sampleHelpers.bindDriver p
          (detachPortFromOvs sampleHelpers p
            (sampleHelpers.validatePort p
              (detachedState sampleHelpers pre ⟨["eth-a"], []⟩)).2).2).1
          = some (GoError.wrapf (GoError.msg "exit status 1") "no port named eth-b" [])) :=
  ⟨((Detach_returns_first_error sampleHelpers ⟨[⟨"a", 0⟩, ⟨"b", 0⟩]⟩
      ⟨["eth-a", "eth-b"], []⟩).2.1 (by decide)).1,
   match (Detach_returns_first_error sampleHelpers ⟨[⟨"a", 0⟩, ⟨"b", 0⟩, ⟨"c", 0⟩]⟩
      ⟨["eth-a"], []⟩).2.2.1
      (GoError.wrapf (GoError.msg "exit status 1") "no port named eth-b" []) (by decide) with
   | ⟨pre, p, post, hp, _, hshape⟩ =>
     ⟨pre, p, post, hp,
      hshape.elim (fun h => Or.inl h.1)
        (fun h => h.elim (fun h => Or.inr (Or.inl h.2.1)) (fun h => Or.inr (Or.inr h.2.2.1)))⟩⟩

/-- C8, refuted as stated: on the stand-in host whose bridge holds `eth-a`,
`Detach` of the ports `a`, `b`, `c` returns an error although port `a` has been
removed from the bridge and its driver bound; `Attach` of three ports, the
second with an empty PCI address, returns an error although the first port has
been added to the bridge. -/
theorem partial_success_counterexample :
    (Detach sampleHelpers ⟨[⟨"a", 0⟩, ⟨"b", 0⟩, ⟨"c", 0⟩]⟩ ⟨["eth-a"], []⟩).err
      = some (GoError.wrapf (GoError.msg "exit status 1") "no port named eth-b" []) ∧
    Step.detachPortFromOvs ⟨"a", 0⟩ none
      ∈ (Detach sampleHelpers ⟨[⟨"a", 0⟩, ⟨"b", 0⟩, ⟨"c", 0⟩]⟩ ⟨["eth-a"], []⟩).steps ∧
    Step.bindDriver ⟨"a", 0⟩ none
      ∈ (Detach sampleHelpers ⟨[⟨"a", 0⟩, ⟨"b", 0⟩, ⟨"c", 0⟩]⟩ ⟨["eth-a"], []⟩).steps ∧
    (Detach sampleHelpers ⟨[⟨"a", 0⟩, ⟨"b", 0⟩, ⟨"c", 0⟩]⟩ ⟨["eth-a"], []⟩).world
      = ⟨[], ["a"]⟩ ∧
    (Attach sampleHelpers ⟨[⟨"0000:01:00.0", 1⟩, ⟨"", 0⟩, ⟨"0000:02:00.0", 1⟩]⟩ ⟨[], []⟩).err
      = some (GoError.msg "PCI address is empty") ∧
    Step.attachPortToOvs ⟨"0000:01:00.0", 1⟩ none
      ∈ (Attach sampleHelpers ⟨[⟨"0000:01:00.0", 1⟩, ⟨"", 0⟩, ⟨"0000:02:00.0", 1⟩]⟩
          ⟨[], []⟩).steps ∧
    (Attach sampleHelpers ⟨[⟨"0000:01:00.0", 1⟩, ⟨"", 0⟩, ⟨"0000:02:00.0", 1⟩]⟩ ⟨[], []⟩).world
      = ⟨["eth-0000:01:00.0"], []⟩ := by
  decide

/-- C8, amended: when `Detach` (respectively `Attach`) returns an error, the
request splits into the ports before the failing port `p`, the port `p` and
the ports after it, such that the call on the ports before `p` alone succeeds
and takes all steps for each of them; its steps and commands are the
beginning of those of the failing call, whose host state is the one the body
for `p` leaves after that successful call (nothing is undone); and the
failing call equals the call without the ports after `p` (they are not
touched). -/
theorem error_keeps_ports_before_failure {F W : Type} (H : Helpers F W) (ports : Ports F)
    (w : W) :
    (∀ e, (Detach H ports w).err = some e →
      ∃ pre p post, ports.Ports = pre ++ p :: post ∧
        (Detach H ⟨pre⟩ w).err = none ∧
        (Detach H ⟨pre⟩ w).steps = Step.updateDPDKDevbindOutput :: pre.flatMap detached ∧
        (Detach H ⟨pre⟩ w).steps <+: (Detach H ports w).steps ∧
        (Detach H ⟨pre⟩ w).cmds <+: (Detach H ports w).cmds ∧
        (Detach H ports w).world = (detachPort H p (Detach H ⟨pre⟩ w).world).world ∧
        (detachPort H p (Detach H ⟨pre⟩ w).world).err = some e ∧
        Detach H ports w = Detach H ⟨pre ++ [p]⟩ w) ∧
    (∀ e, (Attach H ports w).err = some e →
      ∃ pre p post, ports.Ports = pre ++ p :: post ∧
        (Attach H ⟨pre⟩ w).err = none ∧
        (Attach H ⟨pre⟩ w).steps = Step.updateDPDKDevbindOutput :: pre.flatMap attached ∧
        (Attach H ⟨pre⟩ w).steps <+: (Attach H ports w).steps ∧
        (Attach H ports w).world = (attachPort H p (Attach H ⟨pre⟩ w).world).world ∧
        (attachPort H p (Attach H ⟨pre⟩ w).world).err = some e ∧
        Attach H ports w = Attach H ⟨pre ++ [p]⟩ w) := by
  have hokD : ∀ (p : Port F) (w : W), (detachPort H p w).err = none →
      (detachPort H p w).steps = detached p := by
    intro p w h
    rcases detachPort_cases H p w with ⟨_, h2⟩ | ⟨e, h1, _⟩
    · exact h2
    · rw [h] at h1; cases h1
  have hokA : ∀ (p : Port F) (w : W), (attachPort H p w).err = none →
      (attachPort H p w).steps = attached p := by
    intro p w h
    rcases attachPort_cases H p w with ⟨_, h2⟩ | ⟨e, h1, _⟩
    · exact h2
    · rw [h] at h1; cases h1
  constructor
  · intro e he
    rcases forEachPort_cases (detachPort H) detached hokD ports.Ports
        (H.updateDPDKDevbindOutput w) with
      ⟨h1, _⟩ | ⟨e2, pre, p, post, hp, h1, h2, h3, h4, h5, h6, h7, h8⟩
    · simp [Detach, h1] at he
    · have : e2 = e := by
        simp [Detach, h4] at he
        exact he
      subst this
      refine ⟨pre, p, post, hp, ?_, ?_, ?_, ?_, ?_, ?_, ?_⟩
      · simpa [Detach] using h1
      · simp [Detach, h2]
      · simp [Detach, h2, h5]
      · simp [Detach, h6]
      · simpa [Detach] using h7
      · simpa [Detach] using h3
      · simp [Detach, h8]
  · intro e he
    rcases forEachPort_cases (attachPort H) attached hokA ports.Ports
        (H.updateDPDKDevbindOutput w) with
      ⟨h1, _⟩ | ⟨e2, pre, p, post, hp, h1, h2, h3, h4, h5, _, h7, h8⟩
    · simp [Attach, h1] at he
    · have : e2 = e := by
        simp [Attach, h4] at he
        exact he
      subst this
      refine ⟨pre, p, post, hp, ?_, ?_, ?_, ?_, ?_, ?_⟩
      · simpa [Attach] using h1
      · simp [Attach, h2]
      · simp [Attach, h2, h5]
      · simpa [Attach] using h7
      · simpa [Attach] using h3
      · simp [Attach, h8]

/-- C8 amended, at the concrete request of the counterexample: the failing
`Detach` of `a`, `b`, `c` splits into ports before the failure that a
successful call handles completely, and equals the call without the ports
after the failing one. -/
theorem error_keeps_ports_before_failure_witness :
    ∃ pre p post, ([⟨"a", 0⟩, ⟨"b", 0⟩, ⟨"c", 0⟩] : List (Port Nat)) = pre ++ p :: post ∧
      (Detach sampleHelpers ⟨pre⟩ ⟨["eth-a"], []⟩).err = none ∧
      (Detach sampleHelpers ⟨pre⟩ ⟨["eth-a"], []⟩).steps
        = Step.updateDPDKDevbindOutput :: pre.flatMap detached ∧
      Detach sampleHelpers ⟨[⟨"a", 0⟩, ⟨"b", 0⟩, ⟨"c", 0⟩]⟩ ⟨["eth-a"], []⟩
        = Detach sampleHelpers ⟨pre ++ [p]⟩ ⟨["eth-a"], []⟩ :=
  match (error_keeps_ports_before_failure sampleHelpers
      ⟨[⟨"a", 0⟩, ⟨"b", 0⟩, ⟨"c", 0⟩]⟩ ⟨["eth-a"], []⟩).1
      (GoError.wrapf (GoError.msg "exit status 1") "no port named eth-b" []) (by decide) with
  | ⟨pre, p, post, h0, h1, h2, _, _, _, _, h8⟩ => ⟨pre, p, post, h0, h1, h2, h8⟩

/-- The function `detachPortFromOvs` reads nothing of the port but `Pci`. -/
theorem detachPortFromOvs_reads_Pci_only {F W : Type} (H : Helpers F W) (p q : Port F) (w : W)
    (h : p.Pci = q.Pci) : detachPortFromOvs H p w = detachPortFromOvs H q w := by
  simp [detachPortFromOvs, h]

/-- Relative to helpers `validatePort` and `bindDriver` that read nothing of the
port but `Pci`, the body of `Detach` returns the same error, issues the same
commands and leaves the same host state for two ports with the same `Pci`.
Whether the two helpers are such is decided by their bodies. -/
theorem detachPort_agrees_on_Pci {F W : Type} (H : Helpers F W)
    (hv : ∀ p q w, p.Pci = q.Pci → H.validatePort p w = H.validatePort q w)
    (hb : ∀ p q w, p.Pci = q.Pci → H.bindDriver p w = H.bindDriver q w)
    (p q : Port F) (w : W) (h : p.Pci = q.Pci) :
    (detachPort H p w).err = (detachPort H q w).err ∧
    (detachPort H p w).cmds = (detachPort H q w).cmds ∧
    (detachPort H p w).world = (detachPort H q w).world := by
  have e1 := hv p q w h
  have e2 := detachPortFromOvs_reads_Pci_only H p q (H.validatePort q w).2 h
  have e3 := hb p q (detachPortFromOvs H q (H.validatePort q w).2).2 h
  cases hvq : (H.validatePort q w).1 with
  | some e => simp [detachPort, e1, hvq]
  | none =>
    cases hd : (detachPortFromOvs H q (H.validatePort q w).2).1.1 with
    | some e => simp [detachPort, e1, e2, hvq, hd]
    | none => simp [detachPort, e1, e2, e3, hvq, hd]

/-- Relative to helpers `validatePort` and `bindDriver` that read nothing of the
port but `Pci`, two requests whose ports agree pairwise on `Pci` make `Detach`
return the same error, issue the same commands and leave the same host state. -/
theorem Detach_agrees_on_Pci {F W : Type} (H : Helpers F W)
    (hv : ∀ p q w, p.Pci = q.Pci → H.validatePort p w = H.validatePort q w)
    (hb : ∀ p q w, p.Pci = q.Pci → H.bindDriver p w = H.bindDriver q w)
    (ps qs : List (Port F)) (hpq : List.Forall₂ (fun p q => p.Pci = q.Pci) ps qs) (w : W) :
    (Detach H ⟨ps⟩ w).err = (Detach H ⟨qs⟩ w).err ∧
    (Detach H ⟨ps⟩ w).cmds = (Detach H ⟨qs⟩ w).cmds ∧
    (Detach H ⟨ps⟩ w).world = (Detach H ⟨qs⟩ w).world := by
  have loop : ∀ w : W,
      (forEachPort (detachPort H) ps w).err = (forEachPort (detachPort H) qs w).err ∧
      (forEachPort (detachPort H) ps w).cmds = (forEachPort (detachPort H) qs w).cmds ∧
      (forEachPort (detachPort H) ps w).world = (forEachPort (detachPort H) qs w).world := by
    induction hpq with
    | nil => intro w; simp
    | @cons p q _ _ h _ ih =>
      intro w
      obtain ⟨a1, a2, a3⟩ := detachPort_agrees_on_Pci H hv hb p q w h
      cases hq : (detachPort H q w).err with
      | some e =>
        rw [hq] at a1
        simp [forEachPort, a1, hq, a2, a3]
      | none =>
        rw [hq] at a1
        obtain ⟨b1, b2, b3⟩ := ih (detachPort H q w).world
        simp [forEachPort, a1, hq, a2, a3, b1, b2, b3]
  simpa [Detach] using loop (H.updateDPDKDevbindOutput w)

/-- C10: when `getPorts` succeeds, `Get` returns a nil error and a `Ports` message
whose field `Ports` is exactly the list `getPorts` returned; when `getPorts`
fails with `e`, `Get` returns a nil message and the error
`errors.Wrapf(e, "Failed to get ports %s", e.Error())`, which wraps `e`. -/
theorem Get_returns_ports_of_getPorts {F W : Type} (H : Helpers F W) (w : W) :
    ((H.getPorts (H.updateDPDKDevbindOutput w)).1.2.2 = none →
      (Get H w).1 = (some ⟨(H.getPorts (H.updateDPDKDevbindOutput w)).1.1⟩, none)) ∧
    (∀ e, (H.getPorts (H.updateDPDKDevbindOutput w)).1.2.2 = some e →
      (Get H w).1
        = (none, some (GoError.wrapf e "Failed to get ports %s" [e.Error H.Sprintf])) ∧
      ∃ e2, (Get H w).1.2 = some e2 ∧ e2.Unwrap = some e) := by
  constructor
  · intro h
    simp [Get, h]
  · intro e h
    simp [Get, h, GoError.Unwrap]

/-- C10, at concrete hosts: on the stand-in host with two ports `Get` returns
exactly these two, in order; with a failing `getPorts` it returns no message
and the wrapped error. -/
theorem Get_returns_ports_of_getPorts_witness :
    (Get sampleHelpers ⟨["eth-a", "eth-b"], []⟩).1 = (some ⟨[⟨"eth-a", 0⟩, ⟨"eth-b", 0⟩]⟩, none) ∧
    (Get { sampleHelpers with
            getPorts := fun w => (([], [], some (GoError.msg "devbind failed")), w) }
        ⟨[], []⟩).1
      = (none, some (GoError.wrapf (GoError.msg "devbind failed") "Failed to get ports %s"
          ["devbind failed"])) :=
  ⟨(Get_returns_ports_of_getPorts sampleHelpers ⟨["eth-a", "eth-b"], []⟩).1 rfl,
   ((Get_returns_ports_of_getPorts
      { sampleHelpers with
        getPorts := fun w => (([], [], some (GoError.msg "devbind failed")), w) }
      ⟨[], []⟩).2 (GoError.msg "devbind failed") rfl).1⟩

end InterfaceService

namespace InterfaceService

/-- C12, refuted as stated: asked to run `ovs-vsctl del-port eth-a`, `vsctl`
executes the program `sudo`, not `ovs-vsctl`; asked to run
`dpdk-devbind.py --status`, `devbind` executes `sudo` as well. -/
theorem vsctl_runs_sudo_counterexample :
    (vsctl sampleHelpers.recording ["ovs-vsctl", "del-port", "eth-a"] (⟨[], []⟩, [])).2.2
      = [⟨"sudo", ["ovs-vsctl", "del-port", "eth-a"]⟩] ∧
    (vsctl sampleHelpers.recording ["ovs-vsctl", "del-port", "eth-a"] (⟨[], []⟩, [])).2.2
      ≠ [⟨"ovs-vsctl", ["ovs-vsctl", "del-port", "eth-a"]⟩] ∧
    (vsctl sampleHelpers.recording ["del-port", "eth-a"] (⟨[], []⟩, [])).2.2
      ≠ [⟨"ovs-vsctl", ["del-port", "eth-a"]⟩] ∧
    (devbind sampleHelpers.recording ["dpdk-devbind.py", "--status"] (⟨[], []⟩, [])).2.2
      = [⟨"sudo", ["dpdk-devbind.py", "--status"]⟩] ∧
    (devbind sampleHelpers.recording ["--status"] (⟨[], []⟩, [])).2.2
      ≠ [⟨"dpdk-devbind.py", ["--status"]⟩] := by
  decide

/-- C12, amended: for every argument list, `vsctl` and `devbind` execute the
program `sudo` once, with exactly the given arguments, and return its
combined output; the tool that `sudo` runs is the first of the given
arguments.  With `Vsctl` at its initial value, `detachPortFromOvs` executes
`sudo ovs-vsctl del-port` on the trimmed port name, and nothing when the port
name cannot be found. -/
theorem vsctl_devbind_run_sudo_with_args {F W : Type} (H : Helpers F W) (args : List String)
    (w : W) (log : List Exec) (port : Port F) :
    vsctl H args w = H.CombinedOutput "sudo" args w ∧
    devbind H args w = H.CombinedOutput "sudo" args w ∧
    (vsctl H.recording args (w, log)).1 = (H.CombinedOutput "sudo" args w).1 ∧
    (vsctl H.recording args (w, log)).2.2 = log ++ [⟨"sudo", args⟩] ∧
    (devbind H.recording args (w, log)).1 = (H.CombinedOutput "sudo" args w).1 ∧
    (devbind H.recording args (w, log)).2.2 = log ++ [⟨"sudo", args⟩] ∧
    ((H.getPortName port.Pci w).1.2 = none →
      (detachPortFromOvs H.recording.initial port (w, log)).2.2
        = log ++ [⟨"sudo", ["ovs-vsctl", "del-port", TrimSpace (H.getPortName port.Pci w).1.1]⟩]) ∧
    ((H.getPortName port.Pci w).1.2 ≠ none →
      (detachPortFromOvs H.recording.initial port (w, log)).2.2 = log) := by
  refine ⟨rfl, rfl, rfl, rfl, rfl, rfl, ?_, ?_⟩
  · intro h
    have h2 : (H.recording.initial.getPortName port.Pci (w, log)).1.2 = none := h
    unfold detachPortFromOvs
    simp only [h2]
    cases hv : (H.recording.initial.Vsctl
        ["ovs-vsctl", "del-port",
          TrimSpace (H.recording.initial.getPortName port.Pci (w, log)).1.1]
        (H.recording.initial.getPortName port.Pci (w, log)).2).1.2 <;>
      simp [Helpers.initial, Helpers.recording, vsctl]
  · intro h
    cases h2 : (H.getPortName port.Pci w).1.2 with
    | none => exact absurd h2 h
    | some e =>
      have h3 : (H.recording.initial.getPortName port.Pci (w, log)).1.2 = some e := h2
      unfold detachPortFromOvs
      simp only [h3]
      simp [Helpers.initial, Helpers.recording]

/-- C12 amended, at a concrete call: on the stand-in host, `detachPortFromOvs`
of the port with PCI address `a` executes `sudo ovs-vsctl del-port eth-a`. -/
theorem vsctl_devbind_run_sudo_with_args_witness :
    (detachPortFromOvs sampleHelpers.recording.initial (⟨"a", 0⟩ : Port Nat)
        (⟨["eth-a"], []⟩, [])).2.2
      = [⟨"sudo", ["ovs-vsctl", "del-port", "eth-a"]⟩] :=
  (vsctl_devbind_run_sudo_with_args sampleHelpers [] ⟨["eth-a"], []⟩ [] ⟨"a", 0⟩).2.2.2.2.2.2.1
    (by decide)

end InterfaceService

namespace EAA

/-- Inside a JSON string the scanner appends every character that is no double
quote, no backslash and no control character. -/
theorem Scan.run_plain (l : List Char) (isKey : Bool) (buf : List Char) (stack : List Frame)
    (result : Option Json)
    (h : l.all (fun c => c != '"' && c != '\\' && !(c.val < 0x20)) = true) :
    l.foldl Scan.step (Scan.run (Mode.string isKey buf) stack result)
      = Scan.run (Mode.string isKey (buf ++ l)) stack result := by
  induction l generalizing buf with
  | nil => simp
  | cons c rest ih =>
    simp only [List.all_cons, Bool.and_eq_true, bne_iff_ne, ne_eq, Bool.not_eq_true',
      decide_eq_false_iff_not] at h
    obtain ⟨⟨⟨h1, h2⟩, h3⟩, h4⟩ := h
    have hs : Scan.step (Scan.run (Mode.string isKey buf) stack result) c
        = Scan.run (Mode.string isKey (buf ++ [c])) stack result := by
      simp [Scan.step, h1, h2, h3]
    rw [List.foldl_cons, hs, ih _ h4]
    simp

/-- The scanner on a plain string inside a JSON string. -/
theorem Scan.run_jsonPlain (s : String) (buf : List Char) (stack : List Frame)
    (h : jsonPlain s = true) :
    s.data.foldl Scan.step (Scan.run (Mode.string false buf) stack none)
      = Scan.run (Mode.string false (buf ++ s.data)) stack none :=
  Scan.run_plain s.data false buf stack none h

set_option maxRecDepth 100000 in
/-- The scanner on the text before the TLS endpoint. -/
theorem Scan.template0 :
    ("\x7b\n\t\t\"TlsEndpoint\": \"").data.foldl Scan.step (Scan.run Mode.value [] none)
      = Scan.run (Mode.string false []) [⟨[], "TlsEndpoint"⟩] none := rfl

set_option maxRecDepth 100000 in
/-- The scanner on the text between the TLS and the validation endpoint. -/
theorem Scan.template1 (buf : List Char) (f : Frame) (rest : List Frame) :
    ("\",\n\t\t\"ValidationEndpoint\": \"").data.foldl Scan.step
        (Scan.run (Mode.string false buf) (f :: rest) none)
      = Scan.run (Mode.string false [])
          (⟨f.members ++ [(f.key, Json.str (String.mk buf))], "ValidationEndpoint"⟩ :: rest)
          none := rfl

set_option maxRecDepth 100000 in
/-- The scanner on the text that opens the object `Certs`. -/
theorem Scan.template2 (buf : List Char) (f : Frame) (rest : List Frame) :
    ("\",\n\t\t\"Certs\": \x7b\n\t\t\t\"CaRootKeyPath\": \"").data.foldl Scan.step
        (Scan.run (Mode.string false buf) (f :: rest) none)
      = Scan.run (Mode.string false [])
          (⟨[], "CaRootKeyPath"⟩ ::
           ⟨f.members ++ [(f.key, Json.str (String.mk buf))], "Certs"⟩ :: rest) none := rfl

set_option maxRecDepth 100000 in
/-- The scanner on the text before the path of the root certificate. -/
theorem Scan.template3 (buf : List Char) (f : Frame) (rest : List Frame) :
    ("\",\n\t\t\t\"CaRootPath\": \"").data.foldl Scan.step
        (Scan.run (Mode.string false buf) (f :: rest) none)
      = Scan.run (Mode.string false [])
          (⟨f.members ++ [(f.key, Json.str (String.mk buf))], "CaRootPath"⟩ :: rest)
          none := rfl

set_option maxRecDepth 100000 in
/-- The scanner on the text before the path of the server certificate. -/
theorem Scan.template4 (buf : List Char) (f : Frame) (rest : List Frame) :
    ("\",\n\t\t\t\"ServerCertPath\": \"").data.foldl Scan.step
        (Scan.run (Mode.string false buf) (f :: rest) none)
      = Scan.run (Mode.string false [])
          (⟨f.members ++ [(f.key, Json.str (String.mk buf))], "ServerCertPath"⟩ :: rest)
          none := rfl

set_option maxRecDepth 100000 in
/-- The scanner on the text before the path of the server key. -/
theorem Scan.template5 (buf : List Char) (f : Frame) (rest : List Frame) :
    ("\",\n\t\t\t\"ServerKeyPath\": \"").data.foldl Scan.step
        (Scan.run (Mode.string false buf) (f :: rest) none)
      = Scan.run (Mode.string false [])
          (⟨f.members ++ [(f.key, Json.str (String.mk buf))], "ServerKeyPath"⟩ :: rest)
          none := rfl

set_option maxRecDepth 100000 in
/-- The scanner on the text before the common name. -/
theorem Scan.template6 (buf : List Char) (f : Frame) (rest : List Frame) :
    ("\",\n\t\t\t\"CommonName\": \"").data.foldl Scan.step
        (Scan.run (Mode.string false buf) (f :: rest) none)
      = Scan.run (Mode.string false [])
          (⟨f.members ++ [(f.key, Json.str (String.mk buf))], "CommonName"⟩ :: rest)
          none := rfl

set_option maxRecDepth 100000 in
/-- The scanner on the text that closes the object `Certs`. -/
theorem Scan.template7 (buf : List Char) (f g : Frame) (rest : List Frame) :
    ("\"\n\t\t\x7d,\n\t\t\"KafkaBroker\": \"").data.foldl Scan.step
        (Scan.run (Mode.string false buf) (f :: g :: rest) none)
      = Scan.run (Mode.string false [])
          (⟨g.members ++
              [(g.key, Json.obj (f.members ++ [(f.key, Json.str (String.mk buf))]))],
            "KafkaBroker"⟩ :: rest) none := rfl

set_option maxRecDepth 100000 in
/-- The scanner on the text that closes the top-level object. -/
theorem Scan.template8 (buf : List Char) (f : Frame) :
    ("\"\n\t\x7d").data.foldl Scan.step (Scan.run (Mode.string false buf) [f] none)
      = Scan.run Mode.done []
          (some (Json.obj (f.members ++ [(f.key, Json.str (String.mk buf))]))) := rfl

/-- The text of `eaa.json` parses, for plain values, to the object of its four
members. -/
theorem parse_eaaCfg (cfg : EAATestSuiteConfig) (t : TempPaths)
    (h1 : jsonPlain cfg.TLSEndpoint = true) (h2 : jsonPlain cfg.ValidationEndpoint = true)
    (h3 : jsonPlain t.tempConfCaRootKeyPath = true) (h4 : jsonPlain t.tempConfCaRootPath = true)
    (h5 : jsonPlain t.tempConfServerCertPath = true)
    (h6 : jsonPlain t.tempConfServerKeyPath = true)
    (h7 : jsonPlain (kafkaBrokerURL cfg) = true) :
    Json.parse (eaaCfg cfg t) = Decoded.ok (Json.obj
      [("TlsEndpoint", Json.str cfg.TLSEndpoint),
       ("ValidationEndpoint", Json.str cfg.ValidationEndpoint),
       ("Certs", Json.obj
          [("CaRootKeyPath", Json.str t.tempConfCaRootKeyPath),
           ("CaRootPath", Json.str t.tempConfCaRootPath),
           ("ServerCertPath", Json.str t.tempConfServerCertPath),
           ("ServerKeyPath", Json.str t.tempConfServerKeyPath),
           ("CommonName", Json.str EaaCommonName)]),
       ("KafkaBroker", Json.str (kafkaBrokerURL cfg))]) := by
  have h0 : jsonPlain EaaCommonName = true := by decide
  simp only [Json.parse, eaaCfg, String.data_append, List.foldl_append]
  rw [Scan.template0, Scan.run_jsonPlain _ _ _ h1, Scan.template1,
    Scan.run_jsonPlain _ _ _ h2, Scan.template2, Scan.run_jsonPlain _ _ _ h3, Scan.template3,
    Scan.run_jsonPlain _ _ _ h4, Scan.template4, Scan.run_jsonPlain _ _ _ h5, Scan.template5,
    Scan.run_jsonPlain _ _ _ h6, Scan.template6, Scan.run_jsonPlain _ _ _ h0, Scan.template7,
    Scan.run_jsonPlain _ _ _ h7, Scan.template8]
  rfl

/-- The loop over the configuration directory issues copies only. -/
theorem copyConfigs_copies_only (cfg : EAATestSuiteConfig) (t : TempPaths)
    (copyFails : String → Bool) (names : List String) :
    ∀ op ∈ (copyConfigs cfg t copyFails names).1, ∃ src dst, op = FsOp.copyFile src dst := by
  induction names with
  | nil => simp [copyConfigs]
  | cons name rest ih =>
    intro op hop
    by_cases hn : name = "eaa.json"
    · simp only [copyConfigs, hn, ne_eq, not_true_eq_false, if_false] at hop
      exact ih op hop
    · by_cases hf : copyFails name = true
      · simp only [copyConfigs, ne_eq, hn, not_false_eq_true, if_true, hf,
          List.mem_singleton] at hop
        exact ⟨_, _, hop⟩
      · simp only [copyConfigs, ne_eq, hn, not_false_eq_true, if_true, hf, Bool.false_eq_true,
          if_false, List.mem_cons] at hop
        rcases hop with hop | hop
        · exact ⟨_, _, hop⟩
        · exact ih op hop

set_option maxRecDepth 100000 in
/-- C13, refuted as stated: for the Kafka backend with the URL `k"x`,
`generateConfigs` writes an `eaa.json` that is no JSON text, so that no field
`KafkaBroker` can be read from it; with the URL `a", "KafkaBroker": "b` the
field `KafkaBroker` of the written file is `b`, not the URL. -/
theorem eaaCfg_field_counterexample :
    FsOp.WriteFile "/tmp/eaa/configs/eaa.json" (eaaCfg quoteCfg samplePaths) 0o644
      ∈ (generateConfigs quoteCfg samplePaths (Except.ok ["eaa.json", "eva.json"])
          (fun _ => false) false).1 ∧
    Unmarshal (eaaCfg quoteCfg samplePaths) zeroConfig = Decoded.syntaxError ∧
    Unmarshal (eaaCfg secondMemberCfg samplePaths) zeroConfig
      = Decoded.ok ⟨"localhost:48080", "", "localhost:42555", 0,
          ⟨"/tmp/eaa/certs/eaa/rootCA.key", "/tmp/eaa/certs/eaa/rootCA.pem",
           "/tmp/eaa/certs/eaa/server.pem", "/tmp/eaa/certs/eaa/server.key", "eaa.openness",
           "", "", ""⟩, "b"⟩ ∧
    secondMemberCfg.MsgBrokerBackend.URL ≠ "b" := by
  decide

/-- C13, amended: when the endpoints, the certificate paths and, for the Kafka
backend, the URL hold no double quote, backslash or control character, the
`eaa.json` written by `generateConfigs` decodes into a `Config` whose
`KafkaBroker` is the URL for the type `"kafka"` and the empty string for every
other type, whose `TlsEndpoint` and `ValidationEndpoint` are the suite's, and
whose other fields outside `Certs` keep their value.  For every configuration
the only file written is `eaa.json` with the text `eaaCfg`, it is written
whenever the function runs to its end, and two configurations with the same
endpoints and the same `KafkaBroker` value give the same text, whatever their
backend types. -/
theorem generateConfigs_eaaCfg_fields {D : Type} (cfg : EAATestSuiteConfig) (t : TempPaths)
    (c : Config D) (files : Except GoError (List String)) (copyFails : String → Bool)
    (writeFails : Bool)
    (h1 : jsonPlain cfg.TLSEndpoint = true) (h2 : jsonPlain cfg.ValidationEndpoint = true)
    (h3 : jsonPlain t.tempConfCaRootKeyPath = true) (h4 : jsonPlain t.tempConfCaRootPath = true)
    (h5 : jsonPlain t.tempConfServerCertPath = true)
    (h6 : jsonPlain t.tempConfServerKeyPath = true)
    (h7 : cfg.MsgBrokerBackend.Typ = "kafka" → jsonPlain cfg.MsgBrokerBackend.URL = true) :
    Unmarshal (eaaCfg cfg t) c = Decoded.ok
      { c with
        TLSEndpoint := cfg.TLSEndpoint
        ValidationEndpoint := cfg.ValidationEndpoint
        Certs := { c.Certs with
          CaRootKeyPath := t.tempConfCaRootKeyPath
          CaRootPath := t.tempConfCaRootPath
          ServerCertPath := t.tempConfServerCertPath
          ServerKeyPath := t.tempConfServerKeyPath
          CommonName := "eaa.openness" }
        KafkaBroker :=
          if cfg.MsgBrokerBackend.Typ = "kafka" then cfg.MsgBrokerBackend.URL else "" } ∧
    (∀ path data perm,
      FsOp.WriteFile path data perm ∈ (generateConfigs cfg t files copyFails writeFails).1 →
        path = t.tempdir ++ "/configs/eaa.json" ∧ data = eaaCfg cfg t ∧ perm = 0o644) ∧
    ((generateConfigs cfg t files copyFails writeFails).2 = true →
      FsOp.WriteFile (t.tempdir ++ "/configs/eaa.json") (eaaCfg cfg t) 0o644
        ∈ (generateConfigs cfg t files copyFails writeFails).1) ∧
    (∀ cfg2 : EAATestSuiteConfig, cfg2.TLSEndpoint = cfg.TLSEndpoint →
      cfg2.ValidationEndpoint = cfg.ValidationEndpoint →
      kafkaBrokerURL cfg2 = kafkaBrokerURL cfg → eaaCfg cfg2 t = eaaCfg cfg t) := by
  have hk : jsonPlain (kafkaBrokerURL cfg) = true := by
    unfold kafkaBrokerURL
    by_cases hty : cfg.MsgBrokerBackend.Typ = KafkaBackend
    · rw [if_pos hty]; exact h7 hty
    · rw [if_neg hty]; decide
  refine ⟨?_, ?_, ?_, ?_⟩
  · unfold Unmarshal
    rw [parse_eaaCfg cfg t h1 h2 h3 h4 h5 h6 hk]
    rfl
  · intro path data perm hmem
    unfold generateConfigs at hmem
    cases files with
    | error e =>
      simp at hmem
    | ok names =>
      have hc := copyConfigs_copies_only cfg t copyFails names
      by_cases hr : (copyConfigs cfg t copyFails names).2 = true
      · simp only [hr, if_true] at hmem
        rcases List.mem_cons.1 hmem with h | h
        · cases h
        · rcases List.mem_append.1 h with h | h
          · obtain ⟨_, _, h⟩ := hc _ h
            cases h
          · have h := List.mem_singleton.1 h
            cases h
            exact ⟨rfl, rfl, rfl⟩
      · simp only [hr, Bool.false_eq_true, if_false] at hmem
        rcases List.mem_cons.1 hmem with h | h
        · cases h
        · obtain ⟨_, _, h⟩ := hc _ h
          cases h
  · intro hrun
    unfold generateConfigs at hrun ⊢
    cases files with
    | error e => simp at hrun
    | ok names =>
      by_cases hr : (copyConfigs cfg t copyFails names).2 = true
      · simp [hr]
      · simp [hr] at hrun
  · intro cfg2 e1 e2 e3
    simp [eaaCfg, e1, e2, e3]

set_option maxRecDepth 100000 in
/-- C13 amended, at concrete configurations: for the Kafka backend at
`broker:9092` the written `eaa.json` decodes with `KafkaBroker` equal to
`broker:9092`; for the default configuration (go channels) with the empty
string; the endpoints are the suite's in both. -/
theorem generateConfigs_eaaCfg_fields_witness :
    Unmarshal (eaaCfg kafkaCfg samplePaths) zeroConfig
      = Decoded.ok ⟨"localhost:48080", "", "localhost:42555", 0,
          ⟨"/tmp/eaa/certs/eaa/rootCA.key", "/tmp/eaa/certs/eaa/rootCA.pem",
           "/tmp/eaa/certs/eaa/server.pem", "/tmp/eaa/certs/eaa/server.key", "eaa.openness",
           "", "", ""⟩, "broker:9092"⟩ ∧
    Unmarshal (eaaCfg defaultCfg samplePaths) zeroConfig
      = Decoded.ok ⟨"localhost:48080", "", "localhost:42555", 0,
          ⟨"/tmp/eaa/certs/eaa/rootCA.key", "/tmp/eaa/certs/eaa/rootCA.pem",
           "/tmp/eaa/certs/eaa/server.pem", "/tmp/eaa/certs/eaa/server.key", "eaa.openness",
           "", "", ""⟩, ""⟩ :=
  ⟨(generateConfigs_eaaCfg_fields kafkaCfg samplePaths zeroConfig (Except.ok []) (fun _ => false)
      false (by decide) (by decide) (by decide) (by decide) (by decide) (by decide)
      (fun _ => by decide)).1,
   (generateConfigs_eaaCfg_fields defaultCfg samplePaths zeroConfig (Except.ok [])
      (fun _ => false) false (by decide) (by decide) (by decide) (by decide) (by decide)
      (by decide) (fun h => absurd h (by decide))).1⟩

end EAA
